import Mathlib

/-
Verification of the LCD (HD44780 over MCP23008 GPIO expander) driver and the
3x4 matrix keypad scanner of the diyer-cutter firmware.

The embedding models the I2C bus as a trace of events (`Ev`): blocking delays,
register reads, and register writes of the 8-bit GPIO register of the expander
chip the operation addresses.  The GPIO register state of the addressed chip is
threaded explicitly as a `Nat` (always < 256 in the real hardware); each driver
operation maps the current register value to the new register value together
with the list of bus events it issues, mirroring `src/i2c/mod.rs` and
`src/i2c/lcd1602.rs` statement by statement.

Strings are modelled as lists of Unicode scalar values (`List Nat`); the Rust
`str::len` used by the input validation is the UTF-8 byte length, modelled by
`byteLen`.
-/

namespace DiyerCutter

/-- One bus-level event: a microsecond delay, a millisecond delay, a GPIO
register read transaction, or a GPIO register write transaction carrying the
8-bit value written. -/
inductive Ev
  | delayUs : Nat → Ev
  | delayMs : Nat → Ev
  | read : Ev
  | write : Nat → Ev
deriving DecidableEq, Repr

/-! ### GPIO expander primitives, from `src/i2c/mod.rs`

`gpio_set_rmw` reads the GPIO register, ORs the mask in, writes the result
back.  `gpio_unset_rmw` ANDs with the complement of the mask (`!mask` on `u8`
equals `mask ^^^ 255` for masks below 256).  `gpio_write` writes the whole
register.  `gpio_read` issues a read; the value obtained is supplied by the
environment, so the modelled functions that consume it take it as an argument.
-/

def gpio_set_rmw (mask reg : Nat) : Nat × List Ev :=
  (reg ||| mask, [Ev.read, Ev.write (reg ||| mask)])

def gpio_unset_rmw (mask reg : Nat) : Nat × List Ev :=
  (reg &&& (mask ^^^ 255), [Ev.read, Ev.write (reg &&& (mask ^^^ 255))])

def gpio_write (value : Nat) (_reg : Nat) : Nat × List Ev :=
  (value, [Ev.write value])

/-! ### LCD driver constants, from `src/i2c/lcd1602.rs` -/

def LCD_MAX_LINE_LENGTH : Nat := 16
def LCD_MAX_NEWLINES : Nat := 1
def ASCII_INT_OFFSET : Nat := 48

def MASK_RS : Nat := 0b00000001
def MASK_RW : Nat := 0b00000010
def MASK_EN : Nat := 0b00000100
def MASK_D4 : Nat := 0b00001000
def MASK_D5 : Nat := 0b00010000
def MASK_D6 : Nat := 0b00100000
def MASK_D7 : Nat := 0b01000000
def MASK_ALL : Nat := 0b01111111
def MASK_NONE : Nat := 0b00000000
def MASK_PWR : Nat := 0b10000000

def T_RCC_IN_MS : Nat := 10
def T_AS_IN_US : Nat := 40
def PW_EH_IN_US : Nat := 230
def T_CYCE_IN_US : Nat := 500

inductive Direction
  | Left
  | Right
deriving DecidableEq, Repr

/-! ### LCD driver operations, from `src/i2c/lcd1602.rs` -/

def power_on (reg : Nat) : Nat × List Ev :=
  gpio_set_rmw MASK_PWR reg

def power_off (reg : Nat) : Nat × List Ev :=
  gpio_unset_rmw MASK_PWR reg

/-- `pulse_enable`: delay for the address set-up time, raise Enable, hold it
for the minimum pulse width, lower it, then wait out the remainder of the
Enable cycle time. -/
def pulse_enable (reg : Nat) : Nat × List Ev :=
  let s1 := gpio_set_rmw MASK_EN reg
  let s2 := gpio_unset_rmw MASK_EN s1.1
  (s2.1,
    [Ev.delayUs T_AS_IN_US] ++ s1.2 ++ [Ev.delayUs PW_EH_IN_US] ++ s2.2
      ++ [Ev.delayUs (T_CYCE_IN_US - PW_EH_IN_US)])

def reset_pins (reg : Nat) : Nat × List Ev :=
  gpio_unset_rmw MASK_ALL reg

def clear_display (reg : Nat) : Nat × List Ev :=
  let s1 := reset_pins reg
  let s2 := gpio_set_rmw MASK_NONE s1.1
  let s3 := pulse_enable s2.1
  let s4 := reset_pins s3.1
  let s5 := gpio_set_rmw MASK_D4 s4.1
  let s6 := pulse_enable s5.1
  (s6.1, s1.2 ++ s2.2 ++ s3.2 ++ s4.2 ++ s5.2 ++ s6.2)

def set_4bit_2line_mode (reg : Nat) : Nat × List Ev :=
  let s1 := reset_pins reg
  let s2 := gpio_set_rmw MASK_D5 s1.1
  let s3 := pulse_enable s2.1
  let s4 := reset_pins s3.1
  let s5 := gpio_set_rmw MASK_D5 s4.1
  let s6 := pulse_enable s5.1
  let s7 := reset_pins s6.1
  let s8 := gpio_set_rmw MASK_D7 s7.1
  let s9 := pulse_enable s8.1
  (s9.1, s1.2 ++ s2.2 ++ s3.2 ++ s4.2 ++ s5.2 ++ s6.2 ++ s7.2 ++ s8.2 ++ s9.2)

def set_cursor (reg : Nat) : Nat × List Ev :=
  let s1 := reset_pins reg
  let s2 := gpio_set_rmw MASK_NONE s1.1
  let s3 := pulse_enable s2.1
  let s4 := reset_pins s3.1
  let s5 := gpio_set_rmw (MASK_D5 ||| MASK_D6 ||| MASK_D7) s4.1
  let s6 := pulse_enable s5.1
  (s6.1, s1.2 ++ s2.2 ++ s3.2 ++ s4.2 ++ s5.2 ++ s6.2)

def set_autoincrement (reg : Nat) : Nat × List Ev :=
  let s1 := reset_pins reg
  let s2 := gpio_set_rmw MASK_NONE s1.1
  let s3 := pulse_enable s2.1
  let s4 := reset_pins s3.1
  let s5 := gpio_set_rmw (MASK_D5 ||| MASK_D6) s4.1
  let s6 := pulse_enable s5.1
  (s6.1, s1.2 ++ s2.2 ++ s3.2 ++ s4.2 ++ s5.2 ++ s6.2)

/-- Higher-order data-line mask of `write_char`:
`((ascii & 16 | ascii & 32 | ascii & 64 | ascii & 128) >> 1)`. -/
def hi_order_mask (ascii_idx : Nat) : Nat :=
  ((ascii_idx &&& (1 <<< 4)) ||| (ascii_idx &&& (1 <<< 5))
      ||| (ascii_idx &&& (1 <<< 6)) ||| (ascii_idx &&& (1 <<< 7))) >>> 1

/-- Lower-order data-line mask of `write_char`:
`((ascii & 1 | ascii & 2 | ascii & 4 | ascii & 8) << 3)`. -/
def lo_order_mask (ascii_idx : Nat) : Nat :=
  ((ascii_idx &&& (1 <<< 0)) ||| (ascii_idx &&& (1 <<< 1))
      ||| (ascii_idx &&& (1 <<< 2)) ||| (ascii_idx &&& (1 <<< 3))) <<< 3

/-- `write_char`: reset pins, assert Register-Select, assert the high-order
nibble on D4-D7, pulse Enable; then the same again with the low-order
nibble. -/
def write_char (c reg : Nat) : Nat × List Ev :=
  let s1 := reset_pins reg
  let s2 := gpio_set_rmw MASK_RS s1.1
  let s3 := gpio_set_rmw (hi_order_mask c) s2.1
  let s4 := pulse_enable s3.1
  let s5 := reset_pins s4.1
  let s6 := gpio_set_rmw MASK_RS s5.1
  let s7 := gpio_set_rmw (lo_order_mask c) s6.1
  let s8 := pulse_enable s7.1
  (s8.1, s1.2 ++ s2.2 ++ s3.2 ++ s4.2 ++ s5.2 ++ s6.2 ++ s7.2 ++ s8.2)

/-- `newline`: the Set-DDRAM-address command moving the cursor to line 2
(high nibble D6|D7, low nibble zero), Register-Select kept low. -/
def newline (reg : Nat) : Nat × List Ev :=
  let s1 := reset_pins reg
  let s2 := gpio_set_rmw (MASK_D6 ||| MASK_D7) s1.1
  let s3 := pulse_enable s2.1
  let s4 := reset_pins s3.1
  let s5 := gpio_set_rmw MASK_NONE s4.1
  let s6 := pulse_enable s5.1
  (s6.1, s1.2 ++ s2.2 ++ s3.2 ++ s4.2 ++ s5.2 ++ s6.2)

/-- One iteration of `shift_cursor`: high nibble D4, then low nibble D6 iff
the direction is `Right` (left keeps all data lines low). -/
def shift_cursor_once (dir : Direction) (reg : Nat) : Nat × List Ev :=
  let s1 := reset_pins reg
  let s2 := gpio_set_rmw MASK_D4 s1.1
  let s3 := pulse_enable s2.1
  let s4 := reset_pins s3.1
  let s5 := if dir = Direction.Right then
      let t := gpio_set_rmw MASK_D6 s4.1
      let u := pulse_enable t.1
      (u.1, t.2 ++ u.2)
    else pulse_enable s4.1
  (s5.1, s1.2 ++ s2.2 ++ s3.2 ++ s4.2 ++ s5.2)

def shift_cursor (dir : Direction) : Nat → Nat → Nat × List Ev
  | 0, reg => (reg, [])
  | n + 1, reg =>
      let s1 := shift_cursor_once dir reg
      let s2 := shift_cursor dir n s1.1
      (s2.1, s1.2 ++ s2.2)

/-- One iteration of `backspace`: shift the cursor left, write a blank
character (ASCII 32), shift the cursor left again. -/
def backspace_once (reg : Nat) : Nat × List Ev :=
  let s1 := shift_cursor Direction.Left 1 reg
  let s2 := write_char 32 s1.1
  let s3 := shift_cursor Direction.Left 1 s2.1
  (s3.1, s1.2 ++ s2.2 ++ s3.2)

def backspace : Nat → Nat → Nat × List Ev
  | 0, reg => (reg, [])
  | n + 1, reg =>
      let s1 := backspace_once reg
      let s2 := backspace n s1.1
      (s2.1, s1.2 ++ s2.2)

/-! ### `write_string`: validation and the character loop -/

/-- UTF-8 encoded length in bytes of one Unicode scalar value; Rust's
`str::len` sums these. -/
def utf8Len (c : Nat) : Nat :=
  if c < 128 then 1 else if c < 2048 then 2 else if c < 65536 then 3 else 4

/-- Byte length of a string, as Rust `str::len` computes it. -/
def byteLen (l : List Nat) : Nat := (l.map utf8Len).sum

/-- `str::split('\n')`: the segments between newline characters (code 10);
the empty string yields one empty segment, a trailing newline yields a final
empty segment. -/
def splitLines : List Nat → List (List Nat)
  | [] => [[]]
  | c :: rest =>
      if c = 10 then [] :: splitLines rest
      else
        match splitLines rest with
        | [] => [[c]]
        | l :: ls => (c :: l) :: ls

/-- The sanity-check loop of `write_string`: for each line in order, abort if
the line's byte length exceeds `LCD_MAX_LINE_LENGTH`, then abort if the line
index exceeds `LCD_MAX_NEWLINES`.  `false` means the program panics. -/
def checkLines : Nat → List (List Nat) → Bool
  | _, [] => true
  | i, l :: rest =>
      if byteLen l > LCD_MAX_LINE_LENGTH then false
      else if i > LCD_MAX_NEWLINES then false
      else checkLines (i + 1) rest

/-- The output loop of `write_string`: move the cursor on newline, otherwise
write out the character. -/
def writeChars : List Nat → Nat → Nat × List Ev
  | [], reg => (reg, [])
  | c :: rest, reg =>
      let s1 := if c = 10 then newline reg else write_char c reg
      let s2 := writeChars rest s1.1
      (s2.1, s1.2 ++ s2.2)

/-- `write_string`: sanity-check the input (panicking on a contract
violation, modelled by the `none` result with no bus events since the
validation loop issues no transaction), then write the characters out. -/
def write_string (s : List Nat) (reg : Nat) : Option Nat × List Ev :=
  if checkLines 0 (splitLines s) then
    let r := writeChars s reg
    (some r.1, r.2)
  else (none, [])

/-! ### `write_u32`, from `src/i2c/lcd1602.rs` -/

/-- The zero-padded ASCII values computed by `write_u32` by successive
subtraction, remainder and division. -/
def write_u32_ascii_vals (val : Nat) : List Nat :=
  let ones := val % 10
  let tens := ((val - ones) % 100) / 10
  let hundreds := ((val - tens - ones) % 1000) / 100
  let thousands := ((val - hundreds - tens - ones) % 10000) / 1000
  let ten_thousands := (val - thousands - hundreds - tens - ones) / 10000
  [ten_thousands + ASCII_INT_OFFSET, thousands + ASCII_INT_OFFSET,
    hundreds + ASCII_INT_OFFSET, tens + ASCII_INT_OFFSET,
    ones + ASCII_INT_OFFSET]

/-- The loop of `write_u32`: each ASCII value is turned into a one-character
string by `char::from_u32(..).unwrap().encode_utf8` (panicking on a surrogate
or out-of-range value) and written through `write_string`. -/
def writeEach : List Nat → Nat → Option Nat × List Ev
  | [], reg => (some reg, [])
  | v :: rest, reg =>
      if (55296 ≤ v ∧ v ≤ 57343) ∨ 1114112 ≤ v then (none, [])
      else
        match write_string [v] reg with
        | (some r, t) =>
            let s2 := writeEach rest r
            (s2.1, t ++ s2.2)
        | (none, t) => (none, t)

def write_u32 (val reg : Nat) : Option Nat × List Ev :=
  writeEach (write_u32_ascii_vals val) reg

/-! ### The `src/i2c_periphs/lcd1602.rs` revision

Same bus and pin layout; `write_char` sets the four data lines one by one
with a conditional read-modify-write per bit instead of a single combined
mask.  Only what `write_u8` reaches is modelled.
-/

namespace Periphs

/-- One `if ascii_idx & (1 << k) != 0 { rmw_mask_val_set(GPIO, MASK_Dj) }`
statement of the `i2c_periphs` `write_char`: a conditional
read-modify-write. -/
def cond_set (cond : Prop) [Decidable cond] (mask reg : Nat) :
    Nat × List Ev :=
  if cond then gpio_set_rmw mask reg else (reg, [])

/-- `LcdInputPins::write_char` of the `i2c_periphs` revision: after asserting
Register-Select, each data bit of the nibble is set by its own conditional
read-modify-write. -/
def write_char (c reg : Nat) : Nat × List Ev :=
  let s1 := DiyerCutter.reset_pins reg
  let s2 := gpio_set_rmw MASK_RS s1.1
  let h4 := cond_set (c &&& (1 <<< 4) ≠ 0) MASK_D4 s2.1
  let h5 := cond_set (c &&& (1 <<< 5) ≠ 0) MASK_D5 h4.1
  let h6 := cond_set (c &&& (1 <<< 6) ≠ 0) MASK_D6 h5.1
  let h7 := cond_set (c &&& (1 <<< 7) ≠ 0) MASK_D7 h6.1
  let s3 := pulse_enable h7.1
  let s4 := DiyerCutter.reset_pins s3.1
  let s5 := gpio_set_rmw MASK_RS s4.1
  let l0 := cond_set (c &&& (1 <<< 0) ≠ 0) MASK_D4 s5.1
  let l1 := cond_set (c &&& (1 <<< 1) ≠ 0) MASK_D5 l0.1
  let l2 := cond_set (c &&& (1 <<< 2) ≠ 0) MASK_D6 l1.1
  let l3 := cond_set (c &&& (1 <<< 3) ≠ 0) MASK_D7 l2.1
  let s6 := pulse_enable l3.1
  (s6.1,
    s1.2 ++ s2.2 ++ h4.2 ++ h5.2 ++ h6.2 ++ h7.2 ++ s3.2
      ++ s4.2 ++ s5.2 ++ l0.2 ++ l1.2 ++ l2.2 ++ l3.2 ++ s6.2)

/-- `LcdInputPins::newline` of the `i2c_periphs` revision (same command bytes
as the main revision). -/
def newline (reg : Nat) : Nat × List Ev :=
  DiyerCutter.newline reg

/-- The output loop of the `i2c_periphs` `write_string`. -/
def writeChars : List Nat → Nat → Nat × List Ev
  | [], reg => (reg, [])
  | c :: rest, reg =>
      let s1 := if c = 10 then newline reg else write_char c reg
      let s2 := writeChars rest s1.1
      (s2.1, s1.2 ++ s2.2)

/-- `LcdInputPins::write_string` of the `i2c_periphs` revision: the same
sanity check as the main revision, then the character loop. -/
def write_string (s : List Nat) (reg : Nat) : Option Nat × List Ev :=
  if checkLines 0 (splitLines s) then
    let r := writeChars s reg
    (some r.1, r.2)
  else (none, [])

/-- The zero-padded ASCII values computed by `Lcd1602::write_u8`. -/
def write_u8_ascii_vals (val : Nat) : List Nat :=
  let ones := val % 10
  let tens := ((val - ones) % 100) / 10
  let hundreds := (val - tens - ones) / 100
  [hundreds + ASCII_INT_OFFSET, tens + ASCII_INT_OFFSET,
    ones + ASCII_INT_OFFSET]

/-- The loop of `write_u8`: each ASCII value (always below 256, hence a valid
one-byte char) is written as a one-character string through `write_string`. -/
def writeEach : List Nat → Nat → Option Nat × List Ev
  | [], reg => (some reg, [])
  | v :: rest, reg =>
      match write_string [v] reg with
      | (some r, t) =>
          let s2 := writeEach rest r
          (s2.1, t ++ s2.2)
      | (none, t) => (none, t)

def write_u8 (val reg : Nat) : Option Nat × List Ev :=
  writeEach (write_u8_ascii_vals val) reg

end Periphs

/-! ### Keypad scanner, from `src/i2c/keypad.rs` -/

def NUM_KEYS : Nat := 12

def MASK_C2 : Nat := 0b00000001
def MASK_R1 : Nat := 0b00000010
def MASK_C1 : Nat := 0b00000100
def MASK_R4 : Nat := 0b00001000
def MASK_C3 : Nat := 0b00010000
def MASK_R3 : Nat := 0b00100000
def MASK_R2 : Nat := 0b01000000

def MASK_ALL_COLS : Nat := MASK_C1 ||| MASK_C2 ||| MASK_C3
def MASK_ALL_ROWS : Nat := MASK_R1 ||| MASK_R2 ||| MASK_R3 ||| MASK_R4

inductive Key
  | One
  | Two
  | Three
  | Four
  | Five
  | Six
  | Seven
  | Eight
  | Nine
  | Star
  | Zero
  | Pound
deriving DecidableEq, Repr

structure PressedKeys where
  key_states : List (Key × Bool)
  itr_idx : Nat
deriving DecidableEq, Repr

def PressedKeys.new : PressedKeys :=
  ⟨[(Key.One, false), (Key.Two, false), (Key.Three, false), (Key.Four, false),
    (Key.Five, false), (Key.Six, false), (Key.Seven, false),
    (Key.Eight, false), (Key.Nine, false), (Key.Star, false),
    (Key.Zero, false), (Key.Pound, false)], 0⟩

/-- `self.key_states[i].1 = true`: mark the entry at index `i` pressed,
keeping its key. -/
def setPressed : List (Key × Bool) → Nat → List (Key × Bool)
  | [], _ => []
  | kb :: rest, 0 => (kb.1, true) :: rest
  | kb :: rest, n + 1 => kb :: setPressed rest n

/-- The index that `PressedKeys::set_key` writes for each key. -/
def keyIndex : Key → Nat
  | .One => 0
  | .Two => 1
  | .Three => 2
  | .Four => 3
  | .Five => 4
  | .Six => 5
  | .Seven => 6
  | .Eight => 7
  | .Nine => 8
  | .Star => 9
  | .Zero => 10
  | .Pound => 11

def PressedKeys.set_key (pk : PressedKeys) (k : Key) : PressedKeys :=
  ⟨setPressed pk.key_states (keyIndex k), pk.itr_idx⟩

/-- The keys flagged pressed, in `key_states` order. -/
def pressedList (pk : PressedKeys) : List Key :=
  pk.key_states.filterMap fun kb => if kb.2 then some kb.1 else none

/-- One `if presses & mask > 0 { pressed_keys.set_key(key); key_pressed =
true }` block of `scan`, acting on the accumulator pair
`(pressed_keys, key_pressed)`. -/
def applyIf (cond : Bool) (k : Key) (st : PressedKeys × Bool) :
    PressedKeys × Bool :=
  if cond then (st.1.set_key k, true) else st

/-- `scan`: drive each column high with a full GPIO register write, read the
rows, and accumulate the presses.  The three row-read results `c1_presses`,
`c2_presses`, `c3_presses` are supplied by the environment. -/
def scan (c1_presses c2_presses c3_presses : Nat) :
    Option PressedKeys × List Ev :=
  let st1 := applyIf (decide (c1_presses &&& MASK_R1 > 0)) Key.One
      (PressedKeys.new, false)
  let st2 := applyIf (decide (c1_presses &&& MASK_R2 > 0)) Key.Four st1
  let st3 := applyIf (decide (c1_presses &&& MASK_R3 > 0)) Key.Seven st2
  let st4 := applyIf (decide (c1_presses &&& MASK_R4 > 0)) Key.Star st3
  let st5 := applyIf (decide (c2_presses &&& MASK_R1 > 0)) Key.Two st4
  let st6 := applyIf (decide (c2_presses &&& MASK_R2 > 0)) Key.Five st5
  let st7 := applyIf (decide (c2_presses &&& MASK_R3 > 0)) Key.Eight st6
  let st8 := applyIf (decide (c2_presses &&& MASK_R4 > 0)) Key.Zero st7
  let st9 := applyIf (decide (c3_presses &&& MASK_R1 > 0)) Key.Three st8
  let st10 := applyIf (decide (c3_presses &&& MASK_R2 > 0)) Key.Six st9
  let st11 := applyIf (decide (c3_presses &&& MASK_R3 > 0)) Key.Nine st10
  let st12 := applyIf (decide (c3_presses &&& MASK_R4 > 0)) Key.Pound st11
  (if st12.2 then some st12.1 else none,
    [Ev.write MASK_C1, Ev.read, Ev.write MASK_C2, Ev.read,
      Ev.write MASK_C3, Ev.read])

/-- The values carried by the write transactions of a trace, in order. -/
def writesOf : List Ev → List Nat
  | [] => []
  | Ev.write v :: rest => v :: writesOf rest
  | _ :: rest => writesOf rest

/-! ### Debounced single-key scan

Modelled from the spec: the most mature revision's debounced `scan(timer,
i2c) -> Option<Key>` (the function `src/main.rs` calls) is not among the
sources; per the spec, once any key is detected pressed the scan is
re-invoked repeatedly, with a fixed 250 microsecond delay between re-scans,
until no key registers as pressed, and only then is the originally-detected
key returned; `None` is returned when no key is pressed at call time.
`pressed t` tells whether re-scan number `t` still registers any key;
`fuel` bounds the modelled loop, `none` meaning the loop has not returned
within `fuel` iterations. -/
def debounce_wait (pressed : Nat → Bool) : Nat → Nat → Option (Nat × List Ev)
  | _, 0 => none
  | t, fuel + 1 =>
      if pressed t then
        (debounce_wait pressed (t + 1) fuel).map
          fun nt => (nt.1, Ev.delayUs 250 :: nt.2)
      else some (t, [Ev.delayUs 250])

/-- Modelled from the spec: the first pressed key of a scan result, as the
`PressedKeys` iterator yields it. -/
def firstKey (pk : PressedKeys) : Option Key :=
  (pressedList pk).head?

/-- Modelled from the spec: the debounced scan.  `reads t` gives the three
row-read values of scan number `t` (scan 0 is the initial detection scan,
scans 1, 2, ... are the re-scans of the debounce loop). -/
def debounced_scan (reads : Nat → Nat × Nat × Nat) (fuel : Nat) :
    Option (Option Key × List Ev) :=
  match (scan (reads 0).1 (reads 0).2.1 (reads 0).2.2).1 with
  | none => some (none, [])
  | some pk =>
      (debounce_wait
          (fun t =>
            ((scan (reads (t + 1)).1 (reads (t + 1)).2.1
                (reads (t + 1)).2.2).1).isSome)
          0 fuel).map
        fun nt => (firstKey pk, nt.2)

/-! ### Display model

Modelled from the spec: the HD44780 display state the driver's command
stream acts on.  A latched byte with Register-Select high writes the
character at the cursor and advances the cursor (auto-increment entry mode);
with Register-Select low, 0x10 and 0x14 shift the cursor left and right,
a byte with bit 7 set sets the cursor address, and 0x01 clears the display.
-/

structure DisplayState where
  cells : Nat → Nat
  cursor : Nat

def applyByte (st : DisplayState) (rs b : Nat) : DisplayState :=
  if rs ≠ 0 then
    ⟨Function.update st.cells st.cursor b, st.cursor + 1⟩
  else if b = 16 then ⟨st.cells, st.cursor - 1⟩
  else if b = 20 then ⟨st.cells, st.cursor + 1⟩
  else if 128 ≤ b then ⟨st.cells, b - 128⟩
  else if b = 1 then ⟨fun _ => 32, 0⟩
  else st

/-- Interpret a latched nibble sequence: consecutive pairs form one byte,
high nibble first. -/
def applyLatches : DisplayState → List (Nat × Nat) → DisplayState
  | st, (rs, hi) :: (_, lo) :: rest =>
      applyLatches (applyByte st rs (16 * hi + lo)) rest
  | st, _ => st

/-! ### Latched-nibble abstraction

`pulse_enable` latches the data and control lines into the controller at the
moment Enable rises; in the traces above these moments are exactly the write
transactions whose value has the Enable bit set.  `latchSeq` projects each
such write to the pair (Register-Select bit, the D4-D7 nibble). -/

def latchProj (v : Nat) : Nat × Nat := (v &&& MASK_RS, (v >>> 3) &&& 15)

def latchSeq : List Ev → List (Nat × Nat)
  | [] => []
  | Ev.write v :: rest =>
      if v &&& MASK_EN = 0 then latchSeq rest else latchProj v :: latchSeq rest
  | _ :: rest => latchSeq rest

/-- The latched nibbles `write_string` owes per the spec: two Register-Select
high latches carrying the character's high then low nibble for an ordinary
character, the two Register-Select low latches of the line-2 cursor-move
command for a newline. -/
def latchSpec (c : Nat) : List (Nat × Nat) :=
  if c = 10 then [(0, 12), (0, 0)]
  else [(1, (c >>> 4) &&& 15), (1, c &&& 15)]

/-! ### Bit-level toolkit -/

lemma and128_cases (x : Nat) : x &&& 128 = 0 ∨ x &&& 128 = 128 := by
  have h : x &&& 2 ^ 7 = (x.testBit 7).toNat * 2 ^ 7 := Nat.and_two_pow x 7
  cases hb : x.testBit 7 <;> simp [hb] at h <;> simp [h]

lemma and4_cases (x : Nat) : x &&& 4 = 0 ∨ x &&& 4 = 4 := by
  have h : x &&& 2 ^ 2 = (x.testBit 2).toNat * 2 ^ 2 := Nat.and_two_pow x 2
  cases hb : x.testBit 2 <;> simp [hb] at h <;> simp [h]

/-- Two numbers below `2 ^ 8` agreeing on bits 0 to 7 are equal. -/
lemma eq_of_bits8 {x y : Nat} (hx : x < 2 ^ 8) (hy : y < 2 ^ 8)
    (h : ∀ i < 8, x.testBit i = y.testBit i) : x = y := by
  apply Nat.eq_of_testBit_eq
  intro i
  by_cases hi : i < 8
  · exact h i hi
  · have h8 : 2 ^ 8 ≤ 2 ^ i := Nat.pow_le_pow_right (by norm_num) (by omega)
    rw [Nat.testBit_lt_two_pow (lt_of_lt_of_le hx h8),
      Nat.testBit_lt_two_pow (lt_of_lt_of_le hy h8)]

lemma shiftRight_le_self (x n : Nat) : x >>> n ≤ x := by
  rw [Nat.shiftRight_eq_div_pow]
  exact Nat.div_le_self _ _

lemma hi_order_mask_lt (c : Nat) : hi_order_mask c < 2 ^ 8 := by
  unfold hi_order_mask
  have h4 : c &&& 1 <<< 4 < 2 ^ 8 := Nat.and_lt_two_pow _ (by decide)
  have h5 : c &&& 1 <<< 5 < 2 ^ 8 := Nat.and_lt_two_pow _ (by decide)
  have h6 : c &&& 1 <<< 6 < 2 ^ 8 := Nat.and_lt_two_pow _ (by decide)
  have h7 : c &&& 1 <<< 7 < 2 ^ 8 := Nat.and_lt_two_pow _ (by decide)
  exact lt_of_le_of_lt (shiftRight_le_self _ _)
    (Nat.or_lt_two_pow (Nat.or_lt_two_pow (Nat.or_lt_two_pow h4 h5) h6) h7)

lemma shiftLeft3_lt {m : Nat} (hm : m < 2 ^ 4) : m <<< 3 < 2 ^ 8 := by
  rw [Nat.shiftLeft_eq]
  have h : (2 : Nat) ^ 3 = 8 := by norm_num
  rw [h]
  omega

lemma lo_order_mask_lt (c : Nat) : lo_order_mask c < 2 ^ 8 := by
  unfold lo_order_mask
  apply shiftLeft3_lt
  have h0 : c &&& 1 <<< 0 < 2 ^ 4 := Nat.and_lt_two_pow _ (by decide)
  have h1 : c &&& 1 <<< 1 < 2 ^ 4 := Nat.and_lt_two_pow _ (by decide)
  have h2 : c &&& 1 <<< 2 < 2 ^ 4 := Nat.and_lt_two_pow _ (by decide)
  have h3 : c &&& 1 <<< 3 < 2 ^ 4 := Nat.and_lt_two_pow _ (by decide)
  exact Nat.or_lt_two_pow (Nat.or_lt_two_pow (Nat.or_lt_two_pow h0 h1) h2) h3

/-- The high-order mask of `write_char` carries exactly the high nibble of
the character code on the D4-D7 lines. -/
lemma hi_order_mask_eq (c : Nat) :
    hi_order_mask c = ((c >>> 4) &&& 15) <<< 3 := by
  have h15 : (c >>> 4) &&& 15 < 2 ^ 4 := Nat.and_lt_two_pow _ (by decide)
  apply eq_of_bits8 (hi_order_mask_lt c) (shiftLeft3_lt h15)
  intro i hi
  unfold hi_order_mask
  interval_cases i <;>
    · simp only [Nat.testBit_or, Nat.testBit_and, Nat.testBit_shiftRight,
        Nat.testBit_shiftLeft]
      simp [Nat.testBit_to_div_mod]

/-- The low-order mask of `write_char` carries exactly the low nibble of the
character code on the D4-D7 lines. -/
lemma lo_order_mask_eq (c : Nat) :
    lo_order_mask c = (c &&& 15) <<< 3 := by
  have h15 : c &&& 15 < 2 ^ 4 := Nat.and_lt_two_pow _ (by decide)
  apply eq_of_bits8 (lo_order_mask_lt c) (shiftLeft3_lt h15)
  intro i hi
  unfold lo_order_mask
  interval_cases i <;>
    · simp only [Nat.testBit_or, Nat.testBit_and, Nat.testBit_shiftRight,
        Nat.testBit_shiftLeft]
      simp [Nat.testBit_to_div_mod]

lemma and_and_zero (x a b : Nat) (h : a &&& b = 0) : (x &&& a) &&& b = 0 := by
  rw [Nat.and_assoc, h, Nat.and_zero]

lemma or_and_zero {x y b : Nat} (hx : x &&& b = 0) (hy : y &&& b = 0) :
    (x ||| y) &&& b = 0 := by
  rw [Nat.and_comm, Nat.and_or_distrib_left, Nat.and_comm b x,
    Nat.and_comm b y, hx, hy]
  simp

lemma shiftLeft3_and4 (m : Nat) : m <<< 3 &&& 4 = 0 := by
  apply Nat.eq_of_testBit_eq
  intro i
  simp only [Nat.testBit_and, Nat.testBit_shiftLeft, Nat.zero_testBit]
  rcases Nat.lt_or_ge i 3 with hi | hi
  · interval_cases i <;> simp
  · have h4 : Nat.testBit 4 i = false :=
      Nat.testBit_lt_two_pow (lt_of_lt_of_le (by norm_num)
        (Nat.pow_le_pow_right (by norm_num) hi))
    simp [h4]

lemma or4_and4 (x : Nat) : (x ||| 4) &&& 4 = 4 := by
  rw [Nat.and_comm, Nat.and_or_distrib_left]
  rcases and4_cases x with h | h <;> rw [Nat.and_comm 4 x, h] <;> simp

/-- Register-Select bit of a latched value of the shape the driver builds:
power bit, Register-Select bit, a nibble on D4-D7, Enable. -/
lemma latch_rs (x r m : Nat) (hr : r < 2) (hm : m < 2 ^ 4) :
    ((((x &&& 128) ||| r) ||| m <<< 3) ||| 4) &&& 1 = r := by
  rcases and128_cases x with hp | hp <;> rw [hp] <;> interval_cases r <;>
    · apply eq_of_bits8 (Nat.and_lt_two_pow _ (by decide)) (by decide)
      intro i hi
      interval_cases i <;>
        · simp only [Nat.testBit_or, Nat.testBit_and,
            Nat.testBit_shiftRight, Nat.testBit_shiftLeft]
          simp [Nat.testBit_to_div_mod]

/-- D4-D7 nibble of a latched value of the shape the driver builds. -/
lemma latch_nib (x r m : Nat) (hr : r < 2) (hm : m < 2 ^ 4) :
    (((((x &&& 128) ||| r) ||| m <<< 3) ||| 4) >>> 3) &&& 15 = m := by
  have hmlt : m < 2 ^ 8 := by omega
  rcases and128_cases x with hp | hp <;> rw [hp] <;> interval_cases r <;>
    · apply eq_of_bits8 (Nat.and_lt_two_pow _ (by decide)) hmlt
      intro i hi
      interval_cases i <;>
        · simp only [Nat.testBit_or, Nat.testBit_and,
            Nat.testBit_shiftRight, Nat.testBit_shiftLeft]
          simp [Nat.testBit_to_div_mod]
          all_goals omega

/-! ### Latch-sequence lemmas -/

lemma latchSeq_append (t1 t2 : List Ev) :
    latchSeq (t1 ++ t2) = latchSeq t1 ++ latchSeq t2 := by
  induction t1 with
  | nil => rfl
  | cons e rest ih =>
      cases e with
      | write v =>
          simp only [List.cons_append, latchSeq]
          split <;> simp [ih]
      | delayUs n => simpa [latchSeq] using ih
      | delayMs n => simpa [latchSeq] using ih
      | read => simpa [latchSeq] using ih

@[simp] lemma and128_and4 (x : Nat) : (x &&& 128) &&& 4 = 0 :=
  and_and_zero _ _ _ (by decide)

@[simp] lemma and251_and4 (x : Nat) : (x &&& 251) &&& 4 = 0 :=
  and_and_zero _ _ _ (by decide)

@[simp] lemma p_or1_and4 (x : Nat) : ((x &&& 128) ||| 1) &&& 4 = 0 :=
  or_and_zero (and128_and4 x) (by decide)

@[simp] lemma or_shiftLeft3_and4 (y m : Nat) (h : y &&& 4 = 0) :
    (y ||| m <<< 3) &&& 4 = 0 :=
  or_and_zero h (shiftLeft3_and4 m)

@[simp] lemma p_or96_and4 (x : Nat) : ((x &&& 128) ||| 96) &&& 4 = 0 :=
  or_and_zero (and128_and4 x) (by decide)

@[simp] lemma p_or8_and4 (x : Nat) : ((x &&& 128) ||| 8) &&& 4 = 0 :=
  or_and_zero (and128_and4 x) (by decide)

@[simp] lemma p_or64_and4 (x : Nat) : ((x &&& 128) ||| 64) &&& 4 = 0 :=
  or_and_zero (and128_and4 x) (by decide)

@[simp] lemma p_or112_and4 (x : Nat) : ((x &&& 128) ||| 112) &&& 4 = 0 :=
  or_and_zero (and128_and4 x) (by decide)

@[simp] lemma p_or16_and4 (x : Nat) : ((x &&& 128) ||| 16) &&& 4 = 0 :=
  or_and_zero (and128_and4 x) (by decide)

@[simp] lemma p_or48_and4 (x : Nat) : ((x &&& 128) ||| 48) &&& 4 = 0 :=
  or_and_zero (and128_and4 x) (by decide)

@[simp] lemma p_or32_and4 (x : Nat) : ((x &&& 128) ||| 32) &&& 4 = 0 :=
  or_and_zero (and128_and4 x) (by decide)

@[simp] lemma and15_lt (x : Nat) : x &&& 15 < 16 :=
  Nat.and_lt_two_pow (n := 4) _ (by decide)

@[simp] lemma latchProj_rs1 (x m : Nat) (hm : m < 16) :
    latchProj ((((x &&& 128) ||| 1) ||| m <<< 3) ||| 4) = (1, m) := by
  unfold latchProj MASK_RS
  rw [latch_rs x 1 m (by norm_num) (by simpa using hm),
    latch_nib x 1 m (by norm_num) (by simpa using hm)]

@[simp] lemma latchProj96 (x : Nat) :
    latchProj (((x &&& 128) ||| 96) ||| 4) = (0, 12) := by
  rcases and128_cases x with hp | hp <;> rw [latchProj, hp] <;> decide

@[simp] lemma latchProj8 (x : Nat) :
    latchProj (((x &&& 128) ||| 8) ||| 4) = (0, 1) := by
  rcases and128_cases x with hp | hp <;> rw [latchProj, hp] <;> decide

@[simp] lemma latchProj64 (x : Nat) :
    latchProj (((x &&& 128) ||| 64) ||| 4) = (0, 8) := by
  rcases and128_cases x with hp | hp <;> rw [latchProj, hp] <;> decide

@[simp] lemma latchProj0 (x : Nat) :
    latchProj ((x &&& 128) ||| 4) = (0, 0) := by
  rcases and128_cases x with hp | hp <;> rw [latchProj, hp] <;> decide

@[simp] lemma latchProj112 (x : Nat) :
    latchProj (((x &&& 128) ||| 112) ||| 4) = (0, 14) := by
  rcases and128_cases x with hp | hp <;> rw [latchProj, hp] <;> decide

@[simp] lemma latchProj16 (x : Nat) :
    latchProj (((x &&& 128) ||| 16) ||| 4) = (0, 2) := by
  rcases and128_cases x with hp | hp <;> rw [latchProj, hp] <;> decide

@[simp] lemma latchProj48 (x : Nat) :
    latchProj (((x &&& 128) ||| 48) ||| 4) = (0, 6) := by
  rcases and128_cases x with hp | hp <;> rw [latchProj, hp] <;> decide

@[simp] lemma latchProj32 (x : Nat) :
    latchProj (((x &&& 128) ||| 32) ||| 4) = (0, 4) := by
  rcases and128_cases x with hp | hp <;> rw [latchProj, hp] <;> decide

/-- Each `pulse_enable` latches exactly one value: the pin state with the
Enable bit raised. -/
lemma latchSeq_pulse (reg : Nat) :
    latchSeq (pulse_enable reg).2 = [latchProj (reg ||| 4)] := by
  have h1 : (reg ||| 4) &&& 4 = 4 := or4_and4 reg
  simp [pulse_enable, gpio_set_rmw, gpio_unset_rmw, latchSeq, MASK_EN, h1]

@[simp] lemma pulse_enable_fst (reg : Nat) :
    (pulse_enable reg).1 = (reg ||| 4) &&& 251 := by
  simp [pulse_enable, gpio_set_rmw, gpio_unset_rmw, MASK_EN]

lemma latchSeq_write_char (c reg : Nat) :
    latchSeq (write_char c reg).2 = [(1, (c >>> 4) &&& 15), (1, c &&& 15)] := by
  simp [write_char, reset_pins, gpio_set_rmw, gpio_unset_rmw, latchSeq_append,
    latchSeq_pulse, latchSeq, MASK_ALL, MASK_RS, MASK_EN, or4_and4,
    hi_order_mask_eq, lo_order_mask_eq]

lemma latchSeq_newline (reg : Nat) :
    latchSeq (newline reg).2 = [(0, 12), (0, 0)] := by
  simp [newline, reset_pins, gpio_set_rmw, gpio_unset_rmw, latchSeq_append,
    latchSeq_pulse, latchSeq, MASK_ALL, MASK_NONE, MASK_D6, MASK_D7, MASK_EN,
    or4_and4]

lemma latchSeq_shift_once_left (reg : Nat) :
    latchSeq (shift_cursor_once Direction.Left reg).2 = [(0, 1), (0, 0)] := by
  simp [shift_cursor_once, reset_pins, gpio_set_rmw, gpio_unset_rmw,
    latchSeq_append, latchSeq_pulse, latchSeq, MASK_ALL, MASK_D4, MASK_EN,
    or4_and4]

lemma latchSeq_shift_once_right (reg : Nat) :
    latchSeq (shift_cursor_once Direction.Right reg).2 = [(0, 1), (0, 4)] := by
  simp [shift_cursor_once, reset_pins, gpio_set_rmw, gpio_unset_rmw,
    latchSeq_append, latchSeq_pulse, latchSeq, MASK_ALL, MASK_D4, MASK_D6,
    MASK_EN, or4_and4]

lemma latchSeq_clear_display (reg : Nat) :
    latchSeq (clear_display reg).2 = [(0, 0), (0, 1)] := by
  simp [clear_display, reset_pins, gpio_set_rmw, gpio_unset_rmw,
    latchSeq_append, latchSeq_pulse, latchSeq, MASK_ALL, MASK_NONE, MASK_D4,
    MASK_EN, or4_and4]

lemma latchSeq_backspace_once (reg : Nat) :
    latchSeq (backspace_once reg).2 =
      [(0, 1), (0, 0), (1, 2), (1, 0), (0, 1), (0, 0)] := by
  have h32 : latchSeq
      (write_char 32 (shift_cursor_once Direction.Left reg).1).2 =
      [(1, 2), (1, 0)] := by
    have := latchSeq_write_char 32 (shift_cursor_once Direction.Left reg).1
    simpa using this
  simp [backspace_once, shift_cursor, latchSeq_append,
    latchSeq_shift_once_left, h32]

/-- The latch stream of the output loop of `write_string` is exactly, in
order, the two-latch group `latchSpec` prescribes for each character. -/
lemma latchSeq_writeChars (s : List Nat) (reg : Nat) :
    latchSeq (writeChars s reg).2 = s.flatMap latchSpec := by
  induction s generalizing reg with
  | nil => rfl
  | cons c rest ih =>
      by_cases hc : c = 10
      · simp [writeChars, hc, latchSeq_append, latchSeq_newline, latchSpec, ih]
      · simp [writeChars, hc, latchSeq_append, latchSeq_write_char, latchSpec,
          ih]

/-! ### Validation facts for `write_string` -/

lemma splitLines_ne_nil (s : List Nat) : splitLines s ≠ [] := by
  induction s with
  | nil => simp [splitLines]
  | cons c rest ih =>
      by_cases hc : c = 10
      · simp [splitLines, hc]
      · simp only [splitLines, if_neg hc]
        cases h : splitLines rest with
        | nil => exact absurd h ih
        | cons l ls => simp

lemma splitLines_length (s : List Nat) :
    (splitLines s).length = List.count 10 s + 1 := by
  induction s with
  | nil => simp [splitLines]
  | cons c rest ih =>
      by_cases hc : c = 10
      · subst hc
        simp [splitLines, List.count_cons, ih]
      · simp only [splitLines, if_neg hc]
        cases h : splitLines rest with
        | nil => exact absurd h (splitLines_ne_nil rest)
        | cons l ls =>
            rw [h] at ih
            simp only [List.length_cons] at ih ⊢
            rw [List.count_cons]
            simp [hc]
            omega

/-- The sanity-check loop rejects exactly when some line is over-long or the
line index ever exceeds `LCD_MAX_NEWLINES`. -/
lemma checkLines_false_iff (i : Nat) (ls : List (List Nat)) :
    checkLines i ls = false ↔
      (∃ l ∈ ls, LCD_MAX_LINE_LENGTH < byteLen l) ∨
        (ls ≠ [] ∧ 2 < i + ls.length) := by
  induction ls generalizing i with
  | nil => simp [checkLines]
  | cons l rest ih =>
      by_cases h1 : byteLen l > LCD_MAX_LINE_LENGTH
      · simp only [checkLines, if_pos h1]
        constructor
        · intro _
          exact Or.inl ⟨l, by simp, h1⟩
        · intro _
          trivial
      · by_cases h2 : i > LCD_MAX_NEWLINES
        · simp only [checkLines, if_neg h1, if_pos h2]
          unfold LCD_MAX_NEWLINES at h2
          constructor
          · intro _
            refine Or.inr ⟨by simp, ?_⟩
            simp only [List.length_cons]
            omega
          · intro _
            trivial
        · simp only [checkLines, if_neg h1, if_neg h2]
          rw [ih]
          unfold LCD_MAX_NEWLINES at h2
          constructor
          · rintro (⟨l2, hm, hl⟩ | ⟨hne, hlen⟩)
            · exact Or.inl ⟨l2, List.mem_cons_of_mem _ hm, hl⟩
            · refine Or.inr ⟨by simp, ?_⟩
              have hp : 0 < rest.length := List.length_pos.mpr hne
              simp only [List.length_cons]
              omega
          · rintro (⟨l2, hm, hl⟩ | ⟨hne2, hlen⟩)
            · rcases List.mem_cons.mp hm with rfl | hm2
              · exact absurd hl h1
              · exact Or.inl ⟨l2, hm2, hl⟩
            · right
              cases hr : rest with
              | nil =>
                  exfalso
                  subst hr
                  simp only [List.length_cons, List.length_nil] at hlen
                  omega
              | cons a as =>
                  subst hr
                  refine ⟨by simp, ?_⟩
                  simp only [List.length_cons] at hlen ⊢
                  omega

/-! ### Concrete strings from the spec scenarios -/

/-- The character codes of "CUT LENGTH (in):\\n-> " (16 characters on line 1,
3 on line 2). -/
def cutPrompt : List Nat :=
  [67, 85, 84, 32, 76, 69, 78, 71, 84, 72, 32, 40, 105, 110, 41, 58, 10,
    45, 62, 32]

/-- The character codes of "01234567890123456\\n" (17 characters on
line 1). -/
def longLine17 : List Nat :=
  [48, 49, 50, 51, 52, 53, 54, 55, 56, 57, 48, 49, 50, 51, 52, 53, 54, 10]

lemma write_string_none_iff (s : List Nat) (reg : Nat) :
    (write_string s reg).1 = none ↔ checkLines 0 (splitLines s) = false := by
  by_cases hv : checkLines 0 (splitLines s) <;> simp [write_string, hv]

/-- Claim C1 (amended: the per-line bound the validation enforces is the
line's UTF-8 byte length, which for ASCII text is its character count).
For every input accepted by the validation, `write_string` issues per
non-newline character exactly two Enable-pulsed nibble writes, high nibble
`(ascii >> 4) & 0xF` then low nibble `ascii & 0xF` on the D4-D7 data lines
with Register-Select asserted during both, and per newline exactly the two
Enable-pulsed nibble writes of the line-2 cursor move with Register-Select
deasserted. -/
theorem write_string_nibble_protocol (s : List Nat) (reg : Nat)
    (h : checkLines 0 (splitLines s) = true) :
    ∃ r, write_string s reg = (some r, (writeChars s reg).2) ∧
      latchSeq (writeChars s reg).2 = s.flatMap latchSpec :=
  ⟨(writeChars s reg).1, by simp [write_string, h], latchSeq_writeChars s reg⟩

/-- Witness for `write_string_nibble_protocol` at the string "HI\\n!". -/
theorem write_string_nibble_protocol_witness :
    checkLines 0 (splitLines [72, 73, 10, 33]) = true ∧
      ∃ r, write_string [72, 73, 10, 33] 0 =
          (some r, (writeChars [72, 73, 10, 33] 0).2) ∧
        latchSeq (writeChars [72, 73, 10, 33] 0).2 =
          [72, 73, 10, 33].flatMap latchSpec :=
  ⟨by decide, write_string_nibble_protocol [72, 73, 10, 33] 0 (by decide)⟩

/-- Counterexample to claim C1 as stated: nine times the character U+00E9
(two UTF-8 bytes each) is a string with no newline, every line at most 16
characters, yet `write_string` aborts in validation (18 bytes > 16) and
issues no Enable-pulsed nibble write at all. -/
theorem write_string_nibble_protocol_counterexample :
    List.count 10 (List.replicate 9 233) = 0 ∧
      (∀ l ∈ splitLines (List.replicate 9 233), l.length ≤ 16) ∧
      (write_string (List.replicate 9 233) 0).1 = none ∧
      latchSeq (write_string (List.replicate 9 233) 0).2 = [] := by
  decide

/-- Claim C3 (amended: the per-line bound is the line's UTF-8 byte length;
for the ASCII scenario strings this is the character count).  `write_string`
aborts exactly when the input has more than one newline or a line longer
than 16 bytes; the prompt "CUT LENGTH (in):\\n-> " is accepted and
"01234567890123456\\n" is rejected. -/
theorem write_string_abort_contract :
    (∀ (s : List Nat) (reg : Nat),
      ((write_string s reg).1 = none ↔
        1 < List.count 10 s ∨ ∃ l ∈ splitLines s, 16 < byteLen l)) ∧
      (write_string cutPrompt 0).1.isSome = true ∧
      (write_string longLine17 0).1 = none := by
  refine ⟨?_, by decide, by decide⟩
  intro s reg
  rw [write_string_none_iff, checkLines_false_iff]
  have hlen := splitLines_length s
  have hne := splitLines_ne_nil s
  unfold LCD_MAX_LINE_LENGTH
  constructor
  · rintro (h | ⟨-, h⟩)
    · exact Or.inr h
    · left
      omega
  · rintro (h | h)
    · exact Or.inr ⟨hne, by omega⟩
    · exact Or.inl h

/-- Counterexample to claim C3 as stated: ten times U+00E9 has no newline
and its only line has 10 characters, yet `write_string` aborts (20 UTF-8
bytes > 16). -/
theorem write_string_abort_contract_counterexample :
    (write_string (List.replicate 10 233) 0).1 = none ∧
      List.count 10 (List.replicate 10 233) = 0 ∧
      ∀ l ∈ splitLines (List.replicate 10 233), l.length ≤ 16 := by
  decide

/-- Claim C9: `write_string` runs its whole validation before the first bus
transaction, so an aborting call has issued no bus event and left the
display untouched. -/
theorem write_string_no_partial_output (s : List Nat) (reg : Nat)
    (h : (write_string s reg).1 = none) :
    (write_string s reg).2 = [] := by
  by_cases hv : checkLines 0 (splitLines s) <;>
    simp [write_string, hv] at h ⊢

/-- Witness for `write_string_no_partial_output` at the over-long line. -/
theorem write_string_no_partial_output_witness :
    (write_string longLine17 0).1 = none ∧
      (write_string longLine17 0).2 = [] :=
  ⟨by decide, write_string_no_partial_output longLine17 0 (by decide)⟩

/-! ### Claim C7: the Enable pulse timing -/

/-- Claim C7: every `pulse_enable` delays `T_AS_IN_US` = 40 microseconds
before the bus write that sets the Enable bit, holds Enable high for
`PW_EH_IN_US` = 230 microseconds, clears the Enable bit with a bus write,
and then delays the remainder `T_CYCE_IN_US - PW_EH_IN_US` = 270
microseconds of the Enable cycle, totalling at least 500 microseconds. -/
theorem pulse_enable_timing (reg : Nat) :
    pulse_enable reg =
      ((reg ||| MASK_EN) &&& (MASK_EN ^^^ 255),
        [Ev.delayUs T_AS_IN_US, Ev.read, Ev.write (reg ||| MASK_EN),
          Ev.delayUs PW_EH_IN_US, Ev.read,
          Ev.write ((reg ||| MASK_EN) &&& (MASK_EN ^^^ 255)),
          Ev.delayUs (T_CYCE_IN_US - PW_EH_IN_US)]) ∧
      (reg ||| MASK_EN) &&& MASK_EN = MASK_EN ∧
      ((reg ||| MASK_EN) &&& (MASK_EN ^^^ 255)) &&& MASK_EN = 0 ∧
      40 ≤ T_AS_IN_US ∧ 230 ≤ PW_EH_IN_US ∧
      T_CYCE_IN_US - PW_EH_IN_US = 270 ∧
      500 ≤ T_AS_IN_US + PW_EH_IN_US + (T_CYCE_IN_US - PW_EH_IN_US) := by
  refine ⟨rfl, by simpa [MASK_EN] using or4_and4 reg, by simp [MASK_EN],
    by decide, by decide, by decide, by decide⟩

/-! ### Claim C10: the power bit is never touched -/

lemma and128_of_lt {x : Nat} (h : x < 128) : x &&& 128 = 0 := by
  have h2 := Nat.and_two_pow x 7
  rw [Nat.testBit_lt_two_pow (show x < 2 ^ 7 by simpa using h)] at h2
  simpa using h2

@[simp] lemma lit1_and128 : (1 : Nat) &&& 128 = 0 := by decide
@[simp] lemma lit4_and128 : (4 : Nat) &&& 128 = 0 := by decide
@[simp] lemma lit8_and128 : (8 : Nat) &&& 128 = 0 := by decide
@[simp] lemma lit16_and128 : (16 : Nat) &&& 128 = 0 := by decide
@[simp] lemma lit32_and128 : (32 : Nat) &&& 128 = 0 := by decide
@[simp] lemma lit48_and128 : (48 : Nat) &&& 128 = 0 := by decide
@[simp] lemma lit64_and128 : (64 : Nat) &&& 128 = 0 := by decide
@[simp] lemma lit96_and128 : (96 : Nat) &&& 128 = 0 := by decide
@[simp] lemma lit112_and128 : (112 : Nat) &&& 128 = 0 := by decide

@[simp] lemma or_and128 (x m : Nat) (h : m &&& 128 = 0) :
    (x ||| m) &&& 128 = x &&& 128 := by
  rw [Nat.and_comm, Nat.and_or_distrib_left, Nat.and_comm 128 x,
    Nat.and_comm 128 m, h, Nat.or_zero]

@[simp] lemma shiftLeft3_and128 (m : Nat) (h : m < 16) :
    m <<< 3 &&& 128 = 0 := by
  apply and128_of_lt
  rw [Nat.shiftLeft_eq]
  omega

@[simp] lemma and251_and128 (x : Nat) : (x &&& 251) &&& 128 = x &&& 128 := by
  have h : (251 : Nat) &&& 128 = 128 := by decide
  rw [Nat.and_assoc, h]

@[simp] lemma and128_and128 (x : Nat) : (x &&& 128) &&& 128 = x &&& 128 := by
  have h : (128 : Nat) &&& 128 = 128 := by decide
  rw [Nat.and_assoc, h]

lemma or128_and128 (x : Nat) : (x ||| 128) &&& 128 = 128 := by
  rw [Nat.and_comm, Nat.and_or_distrib_left, Nat.and_comm 128 x]
  rcases and128_cases x with h | h <;> rw [h] <;> decide


/-- All write transactions of a trace carry the power bit of `b`. -/
def writes128 (tr : List Ev) (b : Nat) : Prop :=
  ∀ v, Ev.write v ∈ tr → v &&& 128 = b &&& 128

lemma writes128_append {t1 t2 : List Ev} {b : Nat} (h1 : writes128 t1 b)
    (h2 : writes128 t2 b) : writes128 (t1 ++ t2) b := by
  intro v hv
  rcases List.mem_append.mp hv with h | h
  · exact h1 v h
  · exact h2 v h

lemma write_char_preserves128 (c reg : Nat) :
    (write_char c reg).1 &&& 128 = reg &&& 128 ∧
      writes128 (write_char c reg).2 reg := by
  constructor
  · simp [write_char, reset_pins, gpio_set_rmw, gpio_unset_rmw, MASK_ALL,
      MASK_RS, hi_order_mask_eq, lo_order_mask_eq]
  · intro v hv
    simp [write_char, reset_pins, gpio_set_rmw, gpio_unset_rmw, pulse_enable,
      MASK_ALL, MASK_RS, MASK_EN, hi_order_mask_eq, lo_order_mask_eq] at hv
    rcases hv with rfl | rfl | rfl | rfl | rfl | rfl | rfl | rfl | rfl | rfl <;>
      simp [hi_order_mask_eq, lo_order_mask_eq]

lemma writes128_congr {tr : List Ev} {b1 b2 : Nat} (h : writes128 tr b1)
    (e : b1 &&& 128 = b2 &&& 128) : writes128 tr b2 := by
  intro v hv
  rw [← e]
  exact h v hv

lemma newline_preserves128 (reg : Nat) :
    (newline reg).1 &&& 128 = reg &&& 128 ∧ writes128 (newline reg).2 reg := by
  constructor
  · simp [newline, reset_pins, gpio_set_rmw, gpio_unset_rmw, MASK_ALL,
      MASK_NONE, MASK_D6, MASK_D7]
  · intro v hv
    simp [newline, reset_pins, gpio_set_rmw, gpio_unset_rmw, pulse_enable,
      MASK_ALL, MASK_NONE, MASK_D6, MASK_D7, MASK_EN] at hv
    rcases hv with rfl | rfl | rfl | rfl | rfl | rfl | rfl | rfl <;> simp

lemma shift_cursor_once_preserves128 (dir : Direction) (reg : Nat) :
    (shift_cursor_once dir reg).1 &&& 128 = reg &&& 128 ∧
      writes128 (shift_cursor_once dir reg).2 reg := by
  cases dir with
  | Left =>
      constructor
      · simp [shift_cursor_once, reset_pins, gpio_set_rmw, gpio_unset_rmw,
          MASK_ALL, MASK_D4]
      · intro v hv
        simp [shift_cursor_once, reset_pins, gpio_set_rmw, gpio_unset_rmw,
          pulse_enable, MASK_ALL, MASK_D4, MASK_EN] at hv
        rcases hv with rfl | rfl | rfl | rfl | rfl | rfl | rfl <;> simp
  | Right =>
      constructor
      · simp [shift_cursor_once, reset_pins, gpio_set_rmw, gpio_unset_rmw,
          MASK_ALL, MASK_D4, MASK_D6]
      · intro v hv
        simp [shift_cursor_once, reset_pins, gpio_set_rmw, gpio_unset_rmw,
          pulse_enable, MASK_ALL, MASK_D4, MASK_D6, MASK_EN] at hv
        rcases hv with rfl | rfl | rfl | rfl | rfl | rfl | rfl | rfl <;> simp

lemma shift_cursor_preserves128 (dir : Direction) (n reg : Nat) :
    (shift_cursor dir n reg).1 &&& 128 = reg &&& 128 ∧
      writes128 (shift_cursor dir n reg).2 reg := by
  induction n generalizing reg with
  | zero => exact ⟨rfl, by intro v hv; simp [shift_cursor] at hv⟩
  | succ k ih =>
      obtain ⟨h1f, h1w⟩ := shift_cursor_once_preserves128 dir reg
      obtain ⟨h2f, h2w⟩ := ih (shift_cursor_once dir reg).1
      constructor
      · rw [shift_cursor]
        rw [h2f, h1f]
      · rw [shift_cursor]
        exact writes128_append h1w (writes128_congr h2w h1f)

lemma backspace_once_preserves128 (reg : Nat) :
    (backspace_once reg).1 &&& 128 = reg &&& 128 ∧
      writes128 (backspace_once reg).2 reg := by
  obtain ⟨h1f, h1w⟩ := shift_cursor_preserves128 Direction.Left 1 reg
  obtain ⟨h2f, h2w⟩ :=
    write_char_preserves128 32 (shift_cursor Direction.Left 1 reg).1
  obtain ⟨h3f, h3w⟩ := shift_cursor_preserves128 Direction.Left 1
    (write_char 32 (shift_cursor Direction.Left 1 reg).1).1
  constructor
  · rw [backspace_once]
    rw [h3f, h2f, h1f]
  · rw [backspace_once]
    exact writes128_append
      (writes128_append h1w (writes128_congr h2w h1f))
      (writes128_congr h3w (by rw [h2f, h1f]))

lemma backspace_preserves128 (n reg : Nat) :
    (backspace n reg).1 &&& 128 = reg &&& 128 ∧
      writes128 (backspace n reg).2 reg := by
  induction n generalizing reg with
  | zero => exact ⟨rfl, by intro v hv; simp [backspace] at hv⟩
  | succ k ih =>
      obtain ⟨h1f, h1w⟩ := backspace_once_preserves128 reg
      obtain ⟨h2f, h2w⟩ := ih (backspace_once reg).1
      constructor
      · rw [backspace]
        rw [h2f, h1f]
      · rw [backspace]
        exact writes128_append h1w (writes128_congr h2w h1f)

lemma clear_display_preserves128 (reg : Nat) :
    (clear_display reg).1 &&& 128 = reg &&& 128 ∧
      writes128 (clear_display reg).2 reg := by
  constructor
  · simp [clear_display, reset_pins, gpio_set_rmw, gpio_unset_rmw, MASK_ALL,
      MASK_NONE, MASK_D4]
  · intro v hv
    simp [clear_display, reset_pins, gpio_set_rmw, gpio_unset_rmw,
      pulse_enable, MASK_ALL, MASK_NONE, MASK_D4, MASK_EN] at hv
    rcases hv with rfl | rfl | rfl | rfl | rfl | rfl | rfl | rfl <;> simp

lemma set_4bit_2line_mode_preserves128 (reg : Nat) :
    (set_4bit_2line_mode reg).1 &&& 128 = reg &&& 128 ∧
      writes128 (set_4bit_2line_mode reg).2 reg := by
  constructor
  · simp [set_4bit_2line_mode, reset_pins, gpio_set_rmw, gpio_unset_rmw,
      MASK_ALL, MASK_D5, MASK_D7]
  · intro v hv
    simp [set_4bit_2line_mode, reset_pins, gpio_set_rmw, gpio_unset_rmw,
      pulse_enable, MASK_ALL, MASK_D5, MASK_D7, MASK_EN] at hv
    rcases hv with rfl | rfl | rfl | rfl | rfl | rfl | rfl | rfl | rfl | rfl |
      rfl | rfl <;> simp

lemma set_cursor_preserves128 (reg : Nat) :
    (set_cursor reg).1 &&& 128 = reg &&& 128 ∧
      writes128 (set_cursor reg).2 reg := by
  constructor
  · simp [set_cursor, reset_pins, gpio_set_rmw, gpio_unset_rmw, MASK_ALL,
      MASK_NONE, MASK_D5, MASK_D6, MASK_D7]
  · intro v hv
    simp [set_cursor, reset_pins, gpio_set_rmw, gpio_unset_rmw, pulse_enable,
      MASK_ALL, MASK_NONE, MASK_D5, MASK_D6, MASK_D7, MASK_EN] at hv
    rcases hv with rfl | rfl | rfl | rfl | rfl | rfl | rfl | rfl <;> simp

lemma set_autoincrement_preserves128 (reg : Nat) :
    (set_autoincrement reg).1 &&& 128 = reg &&& 128 ∧
      writes128 (set_autoincrement reg).2 reg := by
  constructor
  · simp [set_autoincrement, reset_pins, gpio_set_rmw, gpio_unset_rmw,
      MASK_ALL, MASK_NONE, MASK_D5, MASK_D6]
  · intro v hv
    simp [set_autoincrement, reset_pins, gpio_set_rmw, gpio_unset_rmw,
      pulse_enable, MASK_ALL, MASK_NONE, MASK_D5, MASK_D6, MASK_EN] at hv
    rcases hv with rfl | rfl | rfl | rfl | rfl | rfl | rfl | rfl <;> simp

lemma pulse_enable_preserves128 (reg : Nat) :
    (pulse_enable reg).1 &&& 128 = reg &&& 128 ∧
      writes128 (pulse_enable reg).2 reg := by
  constructor
  · simp
  · intro v hv
    simp [pulse_enable, gpio_set_rmw, gpio_unset_rmw, MASK_EN] at hv
    rcases hv with rfl | rfl <;> simp

lemma writeChars_preserves128 (s : List Nat) (reg : Nat) :
    (writeChars s reg).1 &&& 128 = reg &&& 128 ∧
      writes128 (writeChars s reg).2 reg := by
  induction s generalizing reg with
  | nil => exact ⟨rfl, by intro v hv; simp [writeChars] at hv⟩
  | cons c rest ih =>
      by_cases hc : c = 10
      · obtain ⟨h1f, h1w⟩ := newline_preserves128 reg
        obtain ⟨h2f, h2w⟩ := ih (newline reg).1
        constructor
        · simp only [writeChars, if_pos hc]
          rw [h2f, h1f]
        · simp only [writeChars, if_pos hc]
          exact writes128_append h1w (writes128_congr h2w h1f)
      · obtain ⟨h1f, h1w⟩ := write_char_preserves128 c reg
        obtain ⟨h2f, h2w⟩ := ih (write_char c reg).1
        constructor
        · simp only [writeChars, if_neg hc]
          rw [h2f, h1f]
        · simp only [writeChars, if_neg hc]
          exact writes128_append h1w (writes128_congr h2w h1f)

lemma write_string_preserves128 (s : List Nat) (reg : Nat) :
    (∀ r, (write_string s reg).1 = some r → r &&& 128 = reg &&& 128) ∧
      writes128 (write_string s reg).2 reg := by
  by_cases hv : checkLines 0 (splitLines s)
  · obtain ⟨hf, hw⟩ := writeChars_preserves128 s reg
    constructor
    · intro r hr
      simp [write_string, hv] at hr
      rw [← hr]
      exact hf
    · simpa [write_string, hv] using hw
  · constructor
    · intro r hr
      simp [write_string, hv] at hr
    · intro v hv2
      simp [write_string, hv] at hv2

lemma writeEach_preserves128 (l : List Nat) (reg : Nat) :
    (∀ r, (writeEach l reg).1 = some r → r &&& 128 = reg &&& 128) ∧
      writes128 (writeEach l reg).2 reg := by
  induction l generalizing reg with
  | nil =>
      constructor
      · intro r hr
        simp only [writeEach, Option.some.injEq] at hr
        rw [← hr]
      · intro v hv
        simp [writeEach] at hv
  | cons c rest ih =>
      by_cases hs : (55296 ≤ c ∧ c ≤ 57343) ∨ 1114112 ≤ c
      · constructor
        · intro r hr
          simp [writeEach, hs] at hr
        · intro v hv
          simp [writeEach, hs] at hv
      · by_cases hok : checkLines 0 (splitLines [c])
        · have hws : write_string [c] reg =
              (some (writeChars [c] reg).1, (writeChars [c] reg).2) := by
            simp [write_string, hok]
          have hcf : (writeChars [c] reg).1 &&& 128 = reg &&& 128 :=
            (writeChars_preserves128 [c] reg).1
          constructor
          · intro r hr
            simp only [writeEach, if_neg hs, hws] at hr
            have h2 := (ih (writeChars [c] reg).1).1 r hr
            rw [h2, hcf]
          · have h1w : writes128 (writeChars [c] reg).2 reg :=
              (writeChars_preserves128 [c] reg).2
            have h2w := (ih (writeChars [c] reg).1).2
            intro v hv
            simp only [writeEach, if_neg hs, hws] at hv
            exact writes128_append h1w (writes128_congr h2w hcf) v hv
        · have hws : write_string [c] reg = (none, []) := by
            simp [write_string, hok]
          constructor
          · intro r hr
            simp only [writeEach, if_neg hs, hws] at hr
            simp at hr
          · intro v hv
            simp only [writeEach, if_neg hs, hws] at hv
            simp at hv

lemma write_u32_preserves128 (val reg : Nat) :
    (∀ r, (write_u32 val reg).1 = some r → r &&& 128 = reg &&& 128) ∧
      writes128 (write_u32 val reg).2 reg :=
  writeEach_preserves128 (write_u32_ascii_vals val) reg

/-- Claim C10: `reset_pins` clears exactly the seven control and data bits
(mask `MASK_ALL` = 0b01111111) and leaves the power bit `MASK_PWR` =
0b10000000 unchanged; every LCD operation, in its final register state and
in every bus write it issues, preserves the power bit; `power_on` sets it
and only `power_off` clears it. -/
theorem lcd_power_bit_frame :
    (∀ reg, (reset_pins reg).1 = reg &&& MASK_PWR ∧
      (reset_pins reg).1 &&& MASK_ALL = 0 ∧
      (reset_pins reg).1 &&& MASK_PWR = reg &&& MASK_PWR) ∧
    (∀ reg, (power_on reg).1 &&& MASK_PWR = MASK_PWR) ∧
    (∀ reg, (power_off reg).1 &&& MASK_PWR = 0) ∧
    (∀ c reg, (write_char c reg).1 &&& MASK_PWR = reg &&& MASK_PWR ∧
      writes128 (write_char c reg).2 reg) ∧
    (∀ reg, (newline reg).1 &&& MASK_PWR = reg &&& MASK_PWR ∧
      writes128 (newline reg).2 reg) ∧
    (∀ dir n reg, (shift_cursor dir n reg).1 &&& MASK_PWR = reg &&& MASK_PWR ∧
      writes128 (shift_cursor dir n reg).2 reg) ∧
    (∀ n reg, (backspace n reg).1 &&& MASK_PWR = reg &&& MASK_PWR ∧
      writes128 (backspace n reg).2 reg) ∧
    (∀ reg, (clear_display reg).1 &&& MASK_PWR = reg &&& MASK_PWR ∧
      writes128 (clear_display reg).2 reg) ∧
    (∀ reg, (set_4bit_2line_mode reg).1 &&& MASK_PWR = reg &&& MASK_PWR ∧
      writes128 (set_4bit_2line_mode reg).2 reg) ∧
    (∀ reg, (set_cursor reg).1 &&& MASK_PWR = reg &&& MASK_PWR ∧
      writes128 (set_cursor reg).2 reg) ∧
    (∀ reg, (set_autoincrement reg).1 &&& MASK_PWR = reg &&& MASK_PWR ∧
      writes128 (set_autoincrement reg).2 reg) ∧
    (∀ reg, (pulse_enable reg).1 &&& MASK_PWR = reg &&& MASK_PWR ∧
      writes128 (pulse_enable reg).2 reg) ∧
    (∀ (s : List Nat) reg,
      (∀ r, (write_string s reg).1 = some r →
        r &&& MASK_PWR = reg &&& MASK_PWR) ∧
      writes128 (write_string s reg).2 reg) ∧
    (∀ val reg,
      (∀ r, (write_u32 val reg).1 = some r →
        r &&& MASK_PWR = reg &&& MASK_PWR) ∧
      writes128 (write_u32 val reg).2 reg) := by
  have h127 : (127 : Nat) ^^^ 255 = 128 := by decide
  have h128 : (128 : Nat) ^^^ 255 = 127 := by decide
  refine ⟨?_, ?_, ?_, write_char_preserves128, newline_preserves128,
    shift_cursor_preserves128, backspace_preserves128,
    clear_display_preserves128, set_4bit_2line_mode_preserves128,
    set_cursor_preserves128, set_autoincrement_preserves128,
    pulse_enable_preserves128, write_string_preserves128,
    write_u32_preserves128⟩
  · intro reg
    refine ⟨?_, ?_, ?_⟩
    · simp [reset_pins, gpio_unset_rmw, MASK_ALL, MASK_PWR, h127]
    · simp only [reset_pins, gpio_unset_rmw, MASK_ALL, h127]
      exact and_and_zero _ _ _ (by decide)
    · simp [reset_pins, gpio_unset_rmw, MASK_ALL, MASK_PWR, h127]
  · intro reg
    simpa [power_on, gpio_set_rmw, MASK_PWR] using or128_and128 reg
  · intro reg
    simp only [power_off, gpio_unset_rmw, MASK_PWR, h128]
    exact and_and_zero _ _ _ (by decide)

/-- Witness for `lcd_power_bit_frame`: with the power bit set (register
128), writing "A" keeps the power bit in the final register state, and the
bus write carrying value 129 (power bit plus Register-Select) preserves
it. -/
theorem lcd_power_bit_frame_witness :
    (write_string [65] 128).1 = some (writeChars [65] 128).1 ∧
      (writeChars [65] 128).1 &&& 128 = 128 &&& 128 ∧
      Ev.write 129 ∈ (write_string [65] 128).2 ∧
      129 &&& 128 = 128 &&& 128 := by
  obtain ⟨-, -, -, -, -, -, -, -, -, -, -, -, hws, -⟩ := lcd_power_bit_frame
  refine ⟨by decide, ?_, by decide, ?_⟩
  · exact (hws [65] 128).1 (writeChars [65] 128).1 (by decide)
  · exact (hws [65] 128).2 129 (by decide)

/-! ### Keypad scan analysis -/

/-- The twelve `key_states` entries with given pressed flags, in array
order. -/
def ksList (b1 b2 b3 b4 b5 b6 b7 b8 b9 b10 b11 b12 : Bool) :
    List (Key × Bool) :=
  [(Key.One, b1), (Key.Two, b2), (Key.Three, b3), (Key.Four, b4),
    (Key.Five, b5), (Key.Six, b6), (Key.Seven, b7), (Key.Eight, b8),
    (Key.Nine, b9), (Key.Star, b10), (Key.Zero, b11), (Key.Pound, b12)]

lemma chain_scan (q1 q2 q3 q4 q5 q6 q7 q8 q9 q10 q11 q12 : Bool) :
    (applyIf q12 Key.Pound (applyIf q11 Key.Nine (applyIf q10 Key.Six (applyIf q9 Key.Three (applyIf q8 Key.Zero (applyIf q7 Key.Eight (applyIf q6 Key.Five (applyIf q5 Key.Two (applyIf q4 Key.Star (applyIf q3 Key.Seven (applyIf q2 Key.Four (applyIf q1 Key.One (PressedKeys.new, false))))))))))))) =
      (⟨ksList q1 q5 q9 q2 q6 q10 q3 q7 q11 q4 q8 q12, 0⟩, (((((((((((q1 || q2) || q3) || q4) || q5) || q6) || q7) || q8) || q9) || q10) || q11) || q12)) := by
  have h1 : applyIf q1 Key.One (PressedKeys.new, false) =
      (⟨ksList q1 false false false false false false false false false false false, 0⟩, q1) := by
    cases q1 <;> rfl
  have h2 : applyIf q2 Key.Four
      (⟨ksList q1 false false false false false false false false false false false, 0⟩, q1) =
      (⟨ksList q1 false false q2 false false false false false false false false, 0⟩, (q1 || q2)) := by
    cases q2 <;>
      simp [applyIf, PressedKeys.set_key, setPressed, keyIndex, ksList]
  have h3 : applyIf q3 Key.Seven
      (⟨ksList q1 false false q2 false false false false false false false false, 0⟩, (q1 || q2)) =
      (⟨ksList q1 false false q2 false false q3 false false false false false, 0⟩, ((q1 || q2) || q3)) := by
    cases q3 <;>
      simp [applyIf, PressedKeys.set_key, setPressed, keyIndex, ksList]
  have h4 : applyIf q4 Key.Star
      (⟨ksList q1 false false q2 false false q3 false false false false false, 0⟩, ((q1 || q2) || q3)) =
      (⟨ksList q1 false false q2 false false q3 false false q4 false false, 0⟩, (((q1 || q2) || q3) || q4)) := by
    cases q4 <;>
      simp [applyIf, PressedKeys.set_key, setPressed, keyIndex, ksList]
  have h5 : applyIf q5 Key.Two
      (⟨ksList q1 false false q2 false false q3 false false q4 false false, 0⟩, (((q1 || q2) || q3) || q4)) =
      (⟨ksList q1 q5 false q2 false false q3 false false q4 false false, 0⟩, ((((q1 || q2) || q3) || q4) || q5)) := by
    cases q5 <;>
      simp [applyIf, PressedKeys.set_key, setPressed, keyIndex, ksList]
  have h6 : applyIf q6 Key.Five
      (⟨ksList q1 q5 false q2 false false q3 false false q4 false false, 0⟩, ((((q1 || q2) || q3) || q4) || q5)) =
      (⟨ksList q1 q5 false q2 q6 false q3 false false q4 false false, 0⟩, (((((q1 || q2) || q3) || q4) || q5) || q6)) := by
    cases q6 <;>
      simp [applyIf, PressedKeys.set_key, setPressed, keyIndex, ksList]
  have h7 : applyIf q7 Key.Eight
      (⟨ksList q1 q5 false q2 q6 false q3 false false q4 false false, 0⟩, (((((q1 || q2) || q3) || q4) || q5) || q6)) =
      (⟨ksList q1 q5 false q2 q6 false q3 q7 false q4 false false, 0⟩, ((((((q1 || q2) || q3) || q4) || q5) || q6) || q7)) := by
    cases q7 <;>
      simp [applyIf, PressedKeys.set_key, setPressed, keyIndex, ksList]
  have h8 : applyIf q8 Key.Zero
      (⟨ksList q1 q5 false q2 q6 false q3 q7 false q4 false false, 0⟩, ((((((q1 || q2) || q3) || q4) || q5) || q6) || q7)) =
      (⟨ksList q1 q5 false q2 q6 false q3 q7 false q4 q8 false, 0⟩, (((((((q1 || q2) || q3) || q4) || q5) || q6) || q7) || q8)) := by
    cases q8 <;>
      simp [applyIf, PressedKeys.set_key, setPressed, keyIndex, ksList]
  have h9 : applyIf q9 Key.Three
      (⟨ksList q1 q5 false q2 q6 false q3 q7 false q4 q8 false, 0⟩, (((((((q1 || q2) || q3) || q4) || q5) || q6) || q7) || q8)) =
      (⟨ksList q1 q5 q9 q2 q6 false q3 q7 false q4 q8 false, 0⟩, ((((((((q1 || q2) || q3) || q4) || q5) || q6) || q7) || q8) || q9)) := by
    cases q9 <;>
      simp [applyIf, PressedKeys.set_key, setPressed, keyIndex, ksList]
  have h10 : applyIf q10 Key.Six
      (⟨ksList q1 q5 q9 q2 q6 false q3 q7 false q4 q8 false, 0⟩, ((((((((q1 || q2) || q3) || q4) || q5) || q6) || q7) || q8) || q9)) =
      (⟨ksList q1 q5 q9 q2 q6 q10 q3 q7 false q4 q8 false, 0⟩, (((((((((q1 || q2) || q3) || q4) || q5) || q6) || q7) || q8) || q9) || q10)) := by
    cases q10 <;>
      simp [applyIf, PressedKeys.set_key, setPressed, keyIndex, ksList]
  have h11 : applyIf q11 Key.Nine
      (⟨ksList q1 q5 q9 q2 q6 q10 q3 q7 false q4 q8 false, 0⟩, (((((((((q1 || q2) || q3) || q4) || q5) || q6) || q7) || q8) || q9) || q10)) =
      (⟨ksList q1 q5 q9 q2 q6 q10 q3 q7 q11 q4 q8 false, 0⟩, ((((((((((q1 || q2) || q3) || q4) || q5) || q6) || q7) || q8) || q9) || q10) || q11)) := by
    cases q11 <;>
      simp [applyIf, PressedKeys.set_key, setPressed, keyIndex, ksList]
  have h12 : applyIf q12 Key.Pound
      (⟨ksList q1 q5 q9 q2 q6 q10 q3 q7 q11 q4 q8 false, 0⟩, ((((((((((q1 || q2) || q3) || q4) || q5) || q6) || q7) || q8) || q9) || q10) || q11)) =
      (⟨ksList q1 q5 q9 q2 q6 q10 q3 q7 q11 q4 q8 q12, 0⟩, (((((((((((q1 || q2) || q3) || q4) || q5) || q6) || q7) || q8) || q9) || q10) || q11) || q12)) := by
    cases q12 <;>
      simp [applyIf, PressedKeys.set_key, setPressed, keyIndex, ksList]
  rw [h1, h2, h3, h4, h5, h6, h7, h8, h9, h10, h11, h12]

lemma or_eq_zero_iff (x y : Nat) : x ||| y = 0 ↔ x = 0 ∧ y = 0 := by
  constructor
  · intro h
    constructor <;>
      · apply Nat.eq_of_testBit_eq
        intro i
        have h2 := congrArg (fun z => z.testBit i) h
        simp only [Nat.testBit_or, Nat.zero_testBit, Bool.or_eq_false_iff]
          at h2
        simp [h2.1, h2.2]
  · rintro ⟨rfl, rfl⟩
    rfl

lemma and_or_eq_zero (x a b : Nat) :
    x &&& (a ||| b) = 0 ↔ x &&& a = 0 ∧ x &&& b = 0 := by
  rw [Nat.and_or_distrib_left, or_eq_zero_iff]

lemma rows_zero_iff (x : Nat) :
    x &&& MASK_ALL_ROWS = 0 ↔
      (x &&& MASK_R1 = 0 ∧ x &&& MASK_R2 = 0 ∧ x &&& MASK_R3 = 0 ∧
        x &&& MASK_R4 = 0) := by
  unfold MASK_ALL_ROWS
  rw [and_or_eq_zero, and_or_eq_zero, and_or_eq_zero]
  tauto

lemma filterMap_flag (k : Key) (b : Bool) (l : List (Key × Bool)) :
    List.filterMap (fun kb => if kb.2 then some kb.1 else none) ((k, b) :: l) =
      (if b then [k] else []) ++
        List.filterMap (fun kb => if kb.2 then some kb.1 else none) l := by
  cases b <;> simp

lemma pressedList_ksList
    (b1 b2 b3 b4 b5 b6 b7 b8 b9 b10 b11 b12 : Bool) :
    pressedList ⟨ksList b1 b2 b3 b4 b5 b6 b7 b8 b9 b10 b11 b12, 0⟩ =
      (if b1 then [Key.One] else []) ++ (if b2 then [Key.Two] else []) ++
      (if b3 then [Key.Three] else []) ++ (if b4 then [Key.Four] else []) ++
      (if b5 then [Key.Five] else []) ++ (if b6 then [Key.Six] else []) ++
      (if b7 then [Key.Seven] else []) ++ (if b8 then [Key.Eight] else []) ++
      (if b9 then [Key.Nine] else []) ++ (if b10 then [Key.Star] else []) ++
      (if b11 then [Key.Zero] else []) ++ (if b12 then [Key.Pound] else [])
      := by
  simp only [pressedList, ksList, filterMap_flag, List.filterMap_nil,
    List.append_nil, List.append_assoc]

/-- The column x row to key mapping of the spec's table, in `key_states`
order: for each row bit reading high during a column sweep, the documented
key. -/
def expectedKeys (c1p c2p c3p : Nat) : List Key :=
  (if 0 < c1p &&& MASK_R1 then [Key.One] else []) ++
  (if 0 < c2p &&& MASK_R1 then [Key.Two] else []) ++
  (if 0 < c3p &&& MASK_R1 then [Key.Three] else []) ++
  (if 0 < c1p &&& MASK_R2 then [Key.Four] else []) ++
  (if 0 < c2p &&& MASK_R2 then [Key.Five] else []) ++
  (if 0 < c3p &&& MASK_R2 then [Key.Six] else []) ++
  (if 0 < c1p &&& MASK_R3 then [Key.Seven] else []) ++
  (if 0 < c2p &&& MASK_R3 then [Key.Eight] else []) ++
  (if 0 < c3p &&& MASK_R3 then [Key.Nine] else []) ++
  (if 0 < c1p &&& MASK_R4 then [Key.Star] else []) ++
  (if 0 < c2p &&& MASK_R4 then [Key.Zero] else []) ++
  (if 0 < c3p &&& MASK_R4 then [Key.Pound] else [])

/-- Claim C2: for every triple of row reads, `scan` returns `none` exactly
when no row bit is set in any of the three reads, and otherwise returns
`some` of a `PressedKeys` whose pressed entries are exactly the keys of the
documented column x row table for each row bit reading high. -/
theorem keypad_scan_mapping (c1p c2p c3p : Nat) :
    ((scan c1p c2p c3p).1 = none ↔
      c1p &&& MASK_ALL_ROWS = 0 ∧ c2p &&& MASK_ALL_ROWS = 0 ∧
        c3p &&& MASK_ALL_ROWS = 0) ∧
    (∀ pk, (scan c1p c2p c3p).1 = some pk →
      pressedList pk = expectedKeys c1p c2p c3p) := by
  have hchain := chain_scan
    (decide (c1p &&& MASK_R1 > 0)) (decide (c1p &&& MASK_R2 > 0))
    (decide (c1p &&& MASK_R3 > 0)) (decide (c1p &&& MASK_R4 > 0))
    (decide (c2p &&& MASK_R1 > 0)) (decide (c2p &&& MASK_R2 > 0))
    (decide (c2p &&& MASK_R3 > 0)) (decide (c2p &&& MASK_R4 > 0))
    (decide (c3p &&& MASK_R1 > 0)) (decide (c3p &&& MASK_R2 > 0))
    (decide (c3p &&& MASK_R3 > 0)) (decide (c3p &&& MASK_R4 > 0))
  have hfst : (scan c1p c2p c3p).1 =
      if (((((((((((decide (c1p &&& MASK_R1 > 0) ||
        decide (c1p &&& MASK_R2 > 0)) || decide (c1p &&& MASK_R3 > 0)) ||
        decide (c1p &&& MASK_R4 > 0)) || decide (c2p &&& MASK_R1 > 0)) ||
        decide (c2p &&& MASK_R2 > 0)) || decide (c2p &&& MASK_R3 > 0)) ||
        decide (c2p &&& MASK_R4 > 0)) || decide (c3p &&& MASK_R1 > 0)) ||
        decide (c3p &&& MASK_R2 > 0)) || decide (c3p &&& MASK_R3 > 0)) ||
        decide (c3p &&& MASK_R4 > 0)) then
        some ⟨ksList (decide (c1p &&& MASK_R1 > 0))
          (decide (c2p &&& MASK_R1 > 0)) (decide (c3p &&& MASK_R1 > 0))
          (decide (c1p &&& MASK_R2 > 0)) (decide (c2p &&& MASK_R2 > 0))
          (decide (c3p &&& MASK_R2 > 0)) (decide (c1p &&& MASK_R3 > 0))
          (decide (c2p &&& MASK_R3 > 0)) (decide (c3p &&& MASK_R3 > 0))
          (decide (c1p &&& MASK_R4 > 0)) (decide (c2p &&& MASK_R4 > 0))
          (decide (c3p &&& MASK_R4 > 0)), 0⟩
      else none := by
    simp only [scan]
    rw [hchain]
  constructor
  · rw [hfst]
    have hnone : ∀ (b : Bool) (pk : PressedKeys),
        ((if b then some pk else none) = none) ↔ b = false := by
      intro b pk
      cases b <;> simp
    rw [hnone]
    simp only [Bool.or_eq_false_iff, decide_eq_false_iff_not, Nat.not_lt,
      Nat.le_zero]
    rw [rows_zero_iff c1p, rows_zero_iff c2p, rows_zero_iff c3p]
    tauto
  · intro pk h
    rw [hfst] at h
    set B := (((((((((((decide (c1p &&& MASK_R1 > 0) ||
      decide (c1p &&& MASK_R2 > 0)) || decide (c1p &&& MASK_R3 > 0)) ||
      decide (c1p &&& MASK_R4 > 0)) || decide (c2p &&& MASK_R1 > 0)) ||
      decide (c2p &&& MASK_R2 > 0)) || decide (c2p &&& MASK_R3 > 0)) ||
      decide (c2p &&& MASK_R4 > 0)) || decide (c3p &&& MASK_R1 > 0)) ||
      decide (c3p &&& MASK_R2 > 0)) || decide (c3p &&& MASK_R3 > 0)) ||
      decide (c3p &&& MASK_R4 > 0)) with hB
    cases hb : B
    · rw [hb] at h
      simp at h
    · rw [hb] at h
      simp only [if_true] at h
      have hpk := (Option.some.injEq _ _).mp h
      subst hpk
      rw [pressedList_ksList]
      unfold expectedKeys
      simp only [decide_eq_true_eq]

/-- Witness for `keypad_scan_mapping`: with row bit R1 set during the C1
sweep and row bit R4 set during the C3 sweep, exactly keys 1 and # are
reported. -/
theorem keypad_scan_mapping_witness :
    (scan 2 0 8).1 = some ⟨[(Key.One, true), (Key.Two, false),
      (Key.Three, false), (Key.Four, false), (Key.Five, false),
      (Key.Six, false), (Key.Seven, false), (Key.Eight, false),
      (Key.Nine, false), (Key.Star, false), (Key.Zero, false),
      (Key.Pound, true)], 0⟩ ∧
    pressedList ⟨[(Key.One, true), (Key.Two, false), (Key.Three, false),
      (Key.Four, false), (Key.Five, false), (Key.Six, false),
      (Key.Seven, false), (Key.Eight, false), (Key.Nine, false),
      (Key.Star, false), (Key.Zero, false), (Key.Pound, true)], 0⟩ =
      expectedKeys 2 0 8 := by
  refine ⟨by decide, ?_⟩
  exact (keypad_scan_mapping 2 0 8).2 _ (by decide)

/-- Claim C5 (amended): during one scan call the driver issues exactly three
GPIO register writes, one per column in C1, C2, C3 order, with no separate
deassertion write in between; but each column assert is a full-register
write whose value has the other column bits clear, so the previously driven
column line is deasserted by the next column's own write rather than being
retained by the expander output latch. -/
theorem keypad_scan_column_writes (c1p c2p c3p : Nat) :
    writesOf (scan c1p c2p c3p).2 = [MASK_C1, MASK_C2, MASK_C3] ∧
      MASK_C2 &&& MASK_C1 = 0 ∧ MASK_C3 &&& MASK_C1 = 0 ∧
      MASK_C3 &&& MASK_C2 = 0 := by
  refine ⟨rfl, by decide, by decide, by decide⟩

/-- Counterexample to claim C5 as stated: the register value established by
the C1-asserting write has the C1 bit high (4 &&& 4 = 4), and the very next
write, the one asserting C2, writes the value `MASK_C2` = 1 whose C1 bit is
low (1 &&& 4 = 0) - so that write clears the previously-asserted column bit
instead of leaving it unchanged. -/
theorem keypad_scan_column_writes_counterexample :
    writesOf (scan 0 0 0).2 = [4, 1, 16] ∧ 4 &&& 4 = 4 ∧ 1 &&& 4 = 0 := by
  decide

/-! ### Claim C8: backspace round trip on the display model -/

/-- Claim C8: starting from any display state, write_string "A", then
backspace 1, then write_string "A" again leaves the display contents and
cursor exactly as after the first write_string "A" alone. -/
theorem backspace_write_roundtrip (reg : Nat) (st : DisplayState) :
    ∃ r1 r2 r3 t1 t2 t3,
      write_string [65] reg = (some r1, t1) ∧
      backspace 1 r1 = (r2, t2) ∧
      write_string [65] r2 = (some r3, t3) ∧
      applyLatches st (latchSeq (t1 ++ t2 ++ t3)) =
        applyLatches st (latchSeq t1) := by
  have hv : checkLines 0 (splitLines [65]) = true := by decide
  have ht1 : ∀ x : Nat, latchSeq (writeChars [65] x).2 = [(1, 4), (1, 1)] := by
    intro x
    rw [latchSeq_writeChars]
    decide
  have hbs : ∀ x : Nat, latchSeq (backspace 1 x).2 =
      [(0, 1), (0, 0), (1, 2), (1, 0), (0, 1), (0, 0)] := by
    intro x
    simp [backspace, latchSeq_append, latchSeq_backspace_once]
  refine ⟨(writeChars [65] reg).1,
    (backspace 1 (writeChars [65] reg).1).1,
    (writeChars [65] (backspace 1 (writeChars [65] reg).1).1).1,
    (writeChars [65] reg).2,
    (backspace 1 (writeChars [65] reg).1).2,
    (writeChars [65] (backspace 1 (writeChars [65] reg).1).1).2,
    by simp [write_string, hv], rfl, by simp [write_string, hv], ?_⟩
  rw [latchSeq_append, latchSeq_append, ht1, ht1, hbs]
  simp [applyLatches, applyByte, Function.update_idem]

/-! ### Latch analysis of the `i2c_periphs` `write_char` -/

lemma and2pow_cases (x i : Nat) : x &&& 2 ^ i = 0 ∨ x &&& 2 ^ i = 2 ^ i := by
  have h : x &&& 2 ^ i = (x.testBit i).toNat * 2 ^ i := Nat.and_two_pow x i
  cases hb : x.testBit i <;> simp [hb] at h <;> simp [h]

lemma and_shl1_cases (x k : Nat) :
    x &&& 1 <<< k = 0 ∨ x &&& 1 <<< k = 1 <<< k := by
  have h : (1 : Nat) <<< k = 2 ^ k := by
    rw [Nat.shiftLeft_eq, Nat.one_mul]
  rw [h]
  exact and2pow_cases x k

lemma cond_set_fst (p : Prop) [Decidable p] (mask reg : Nat) :
    (Periphs.cond_set p mask reg).1 = if p then reg ||| mask else reg := by
  unfold Periphs.cond_set
  split <;> simp [gpio_set_rmw]

lemma cond_fst_hi4 (c x : Nat) :
    (Periphs.cond_set (c &&& (1 <<< 4) ≠ 0) MASK_D4 x).1 =
      x ||| ((c &&& (1 <<< 4)) >>> 1) := by
  rw [cond_set_fst]
  rcases and_shl1_cases c 4 with h | h <;> rw [h] <;>
    simp [MASK_D4, show ((1 : Nat) <<< 4) >>> 1 = 8 from by decide,
      show (1 : Nat) <<< 4 ≠ 0 from by decide]

lemma cond_fst_hi5 (c x : Nat) :
    (Periphs.cond_set (c &&& (1 <<< 5) ≠ 0) MASK_D5 x).1 =
      x ||| ((c &&& (1 <<< 5)) >>> 1) := by
  rw [cond_set_fst]
  rcases and_shl1_cases c 5 with h | h <;> rw [h] <;>
    simp [MASK_D5, show ((1 : Nat) <<< 5) >>> 1 = 16 from by decide,
      show (1 : Nat) <<< 5 ≠ 0 from by decide]

lemma cond_fst_hi6 (c x : Nat) :
    (Periphs.cond_set (c &&& (1 <<< 6) ≠ 0) MASK_D6 x).1 =
      x ||| ((c &&& (1 <<< 6)) >>> 1) := by
  rw [cond_set_fst]
  rcases and_shl1_cases c 6 with h | h <;> rw [h] <;>
    simp [MASK_D6, show ((1 : Nat) <<< 6) >>> 1 = 32 from by decide,
      show (1 : Nat) <<< 6 ≠ 0 from by decide]

lemma cond_fst_hi7 (c x : Nat) :
    (Periphs.cond_set (c &&& (1 <<< 7) ≠ 0) MASK_D7 x).1 =
      x ||| ((c &&& (1 <<< 7)) >>> 1) := by
  rw [cond_set_fst]
  rcases and_shl1_cases c 7 with h | h <;> rw [h] <;>
    simp [MASK_D7, show ((1 : Nat) <<< 7) >>> 1 = 64 from by decide,
      show (1 : Nat) <<< 7 ≠ 0 from by decide]

lemma cond_fst_lo0 (c x : Nat) :
    (Periphs.cond_set (c &&& (1 <<< 0) ≠ 0) MASK_D4 x).1 =
      x ||| ((c &&& (1 <<< 0)) <<< 3) := by
  rw [cond_set_fst]
  rcases and_shl1_cases c 0 with h | h <;> rw [h] <;>
    simp [MASK_D4, show ((1 : Nat) <<< 0) <<< 3 = 8 from by decide,
      show (1 : Nat) <<< 0 ≠ 0 from by decide]

lemma cond_fst_lo1 (c x : Nat) :
    (Periphs.cond_set (c &&& (1 <<< 1) ≠ 0) MASK_D5 x).1 =
      x ||| ((c &&& (1 <<< 1)) <<< 3) := by
  rw [cond_set_fst]
  rcases and_shl1_cases c 1 with h | h <;> rw [h] <;>
    simp [MASK_D5, show ((1 : Nat) <<< 1) <<< 3 = 16 from by decide,
      show (1 : Nat) <<< 1 ≠ 0 from by decide]

lemma cond_fst_lo2 (c x : Nat) :
    (Periphs.cond_set (c &&& (1 <<< 2) ≠ 0) MASK_D6 x).1 =
      x ||| ((c &&& (1 <<< 2)) <<< 3) := by
  rw [cond_set_fst]
  rcases and_shl1_cases c 2 with h | h <;> rw [h] <;>
    simp [MASK_D6, show ((1 : Nat) <<< 2) <<< 3 = 32 from by decide,
      show (1 : Nat) <<< 2 ≠ 0 from by decide]

lemma cond_fst_lo3 (c x : Nat) :
    (Periphs.cond_set (c &&& (1 <<< 3) ≠ 0) MASK_D7 x).1 =
      x ||| ((c &&& (1 <<< 3)) <<< 3) := by
  rw [cond_set_fst]
  rcases and_shl1_cases c 3 with h | h <;> rw [h] <;>
    simp [MASK_D7, show ((1 : Nat) <<< 3) <<< 3 = 64 from by decide,
      show (1 : Nat) <<< 3 ≠ 0 from by decide]

lemma hi_chain_eq (x c : Nat) :
    (((x ||| ((c &&& (1 <<< 4)) >>> 1)) ||| ((c &&& (1 <<< 5)) >>> 1)) |||
        ((c &&& (1 <<< 6)) >>> 1)) ||| ((c &&& (1 <<< 7)) >>> 1) =
      x ||| hi_order_mask c := by
  unfold hi_order_mask
  apply Nat.eq_of_testBit_eq
  intro i
  simp [Nat.testBit_or, Nat.testBit_shiftRight, Bool.or_assoc]

lemma lo_chain_eq (x c : Nat) :
    (((x ||| ((c &&& (1 <<< 0)) <<< 3)) ||| ((c &&& (1 <<< 1)) <<< 3)) |||
        ((c &&& (1 <<< 2)) <<< 3)) ||| ((c &&& (1 <<< 3)) <<< 3) =
      x ||| lo_order_mask c := by
  unfold lo_order_mask
  apply Nat.eq_of_testBit_eq
  intro i
  simp [Nat.testBit_or, Nat.testBit_shiftLeft, Bool.or_assoc,
    Bool.and_or_distrib_left]

@[simp] lemma lit8_and4 : (8 : Nat) &&& 4 = 0 := by decide
@[simp] lemma lit16_and4 : (16 : Nat) &&& 4 = 0 := by decide
@[simp] lemma lit32_and4 : (32 : Nat) &&& 4 = 0 := by decide
@[simp] lemma lit64_and4 : (64 : Nat) &&& 4 = 0 := by decide

@[simp] lemma hi4_and4 (c : Nat) : ((c &&& 1 <<< 4) >>> 1) &&& 4 = 0 := by
  rcases and_shl1_cases c 4 with h | h <;> rw [h] <;> decide

@[simp] lemma hi5_and4 (c : Nat) : ((c &&& 1 <<< 5) >>> 1) &&& 4 = 0 := by
  rcases and_shl1_cases c 5 with h | h <;> rw [h] <;> decide

@[simp] lemma hi6_and4 (c : Nat) : ((c &&& 1 <<< 6) >>> 1) &&& 4 = 0 := by
  rcases and_shl1_cases c 6 with h | h <;> rw [h] <;> decide

@[simp] lemma hi7_and4 (c : Nat) : ((c &&& 1 <<< 7) >>> 1) &&& 4 = 0 := by
  rcases and_shl1_cases c 7 with h | h <;> rw [h] <;> decide

@[simp] lemma or_and4_cond (y m : Nat) (h1 : y &&& 4 = 0) (h2 : m &&& 4 = 0) :
    (y ||| m) &&& 4 = 0 :=
  or_and_zero h1 h2

@[simp] lemma hi16_and4 (c : Nat) : ((c &&& 16) >>> 1) &&& 4 = 0 := by
  have h : c &&& 16 = 0 ∨ c &&& 16 = 16 := by simpa using and2pow_cases c 4
  rcases h with h | h <;> rw [h] <;> decide

@[simp] lemma hi32_and4 (c : Nat) : ((c &&& 32) >>> 1) &&& 4 = 0 := by
  have h : c &&& 32 = 0 ∨ c &&& 32 = 32 := by simpa using and2pow_cases c 5
  rcases h with h | h <;> rw [h] <;> decide

@[simp] lemma hi64_and4 (c : Nat) : ((c &&& 64) >>> 1) &&& 4 = 0 := by
  have h : c &&& 64 = 0 ∨ c &&& 64 = 64 := by simpa using and2pow_cases c 6
  rcases h with h | h <;> rw [h] <;> decide

@[simp] lemma hi128_and4 (c : Nat) : ((c &&& 128) >>> 1) &&& 4 = 0 := by
  rcases and128_cases c with h | h <;> rw [h] <;> decide

@[simp] lemma chain_hi5_and4 (reg c : Nat) :
    ((reg &&& 128 ||| 1 ||| (c &&& 16) >>> 1) ||| 16) &&& 4 = 0 :=
  or_and_zero (or_and_zero (p_or1_and4 reg) (hi16_and4 c)) (by decide)

@[simp] lemma chain_hi6_and4 (reg c : Nat) :
    ((reg &&& 128 ||| 1 ||| (c &&& 16) >>> 1 ||| (c &&& 32) >>> 1) ||| 32)
      &&& 4 = 0 :=
  or_and_zero (or_and_zero (or_and_zero (p_or1_and4 reg) (hi16_and4 c))
    (hi32_and4 c)) (by decide)

@[simp] lemma chain_hi7_and4 (reg c : Nat) :
    ((reg &&& 128 ||| 1 ||| (c &&& 16) >>> 1 ||| (c &&& 32) >>> 1 |||
      (c &&& 64) >>> 1) ||| 64) &&& 4 = 0 :=
  or_and_zero (or_and_zero (or_and_zero (or_and_zero (p_or1_and4 reg)
    (hi16_and4 c)) (hi32_and4 c)) (hi64_and4 c)) (by decide)

@[simp] lemma chain_lo1_and4 (reg c : Nat) :
    ((reg &&& 128 ||| 1 ||| (c % 2) <<< 3) ||| 16) &&& 4 = 0 :=
  or_and_zero (or_and_zero (p_or1_and4 reg) (shiftLeft3_and4 _)) (by decide)

@[simp] lemma chain_lo2_and4 (reg c : Nat) :
    ((reg &&& 128 ||| 1 ||| (c % 2) <<< 3 ||| (c &&& 2) <<< 3) ||| 32)
      &&& 4 = 0 :=
  or_and_zero (or_and_zero (or_and_zero (p_or1_and4 reg) (shiftLeft3_and4 _))
    (shiftLeft3_and4 _)) (by decide)

@[simp] lemma chain_lo3_and4 (reg c : Nat) :
    ((reg &&& 128 ||| 1 ||| (c % 2) <<< 3 ||| (c &&& 2) <<< 3 |||
      (c &&& 4) <<< 3) ||| 64) &&& 4 = 0 :=
  or_and_zero (or_and_zero (or_and_zero (or_and_zero (p_or1_and4 reg)
    (shiftLeft3_and4 _)) (shiftLeft3_and4 _)) (shiftLeft3_and4 _)) (by decide)

lemma latchSeq_cond_set (p : Prop) [Decidable p] (mask x : Nat)
    (h : (x ||| mask) &&& 4 = 0) :
    latchSeq (Periphs.cond_set p mask x).2 = [] := by
  unfold Periphs.cond_set
  split <;> simp [gpio_set_rmw, latchSeq, MASK_EN, h]

lemma platch_write_char (c reg : Nat) :
    latchSeq (Periphs.write_char c reg).2 =
      [(1, (c >>> 4) &&& 15), (1, c &&& 15)] := by
  simp only [Periphs.write_char, reset_pins, gpio_set_rmw, gpio_unset_rmw,
    cond_fst_hi4, cond_fst_hi5, cond_fst_hi6, cond_fst_hi7, cond_fst_lo0,
    cond_fst_lo1, cond_fst_lo2, cond_fst_lo3]
  simp only [hi_chain_eq, lo_chain_eq, hi_order_mask_eq, lo_order_mask_eq]
  simp only [MASK_ALL, MASK_RS, MASK_EN, MASK_D4, MASK_D5, MASK_D6, MASK_D7,
    show (127 : Nat) ^^^ 255 = 128 from by decide,
    show (4 : Nat) ^^^ 255 = 251 from by decide, latchSeq_append,
    latchSeq_cond_set, or_and4_cond, and128_and4, and251_and4, p_or1_and4,
    or_shiftLeft3_and4, shiftLeft3_and4, and15_lt, lit8_and4, lit16_and4,
    lit32_and4, lit64_and4]
  simp [latchSeq, pulse_enable, gpio_set_rmw, gpio_unset_rmw, or4_and4,
    latchSeq_append, latchSeq_cond_set, or_and4_cond, and128_and4,
    and251_and4, p_or1_and4, or_shiftLeft3_and4, and15_lt, MASK_EN,
    hi16_and4, hi32_and4, hi64_and4, hi128_and4,
    show (4 : Nat) ^^^ 255 = 251 from by decide]

/-! ### Claim C6: fixed-width numeric display -/

lemma platch_writeChars (s : List Nat) (reg : Nat) :
    latchSeq (Periphs.writeChars s reg).2 = s.flatMap latchSpec := by
  induction s generalizing reg with
  | nil => rfl
  | cons c rest ih =>
      by_cases hc : c = 10
      · simp [Periphs.writeChars, Periphs.newline, hc, latchSeq_append,
          latchSeq_newline, latchSpec, ih]
      · simp [Periphs.writeChars, hc, latchSeq_append, platch_write_char,
          latchSpec, ih]

/-- The successive subtraction, remainder and division of `write_u32`
computes the zero-padded base-10 digits for all values below 100000. -/
lemma write_u32_digits (val : Nat) (h : val < 100000) :
    write_u32_ascii_vals val =
      [val / 10000 + 48, val / 1000 % 10 + 48, val / 100 % 10 + 48,
        val / 10 % 10 + 48, val % 10 + 48] := by
  have e2 : (val - val % 10) % 100 / 10 = val / 10 % 10 := by omega
  have s100 : val % 100 = 10 * (val / 10 % 10) + val % 10 := by omega
  have s1000 : val % 1000 =
      100 * (val / 100 % 10) + 10 * (val / 10 % 10) + val % 10 := by omega
  have s10000 : val % 10000 = 1000 * (val / 1000 % 10) +
      100 * (val / 100 % 10) + 10 * (val / 10 % 10) + val % 10 := by omega
  have hsub3 : val - val / 10 % 10 - val % 10 =
      100 * (val / 100) + 9 * (val / 10 % 10) := by omega
  have key3 : ∀ q d : Nat, d ≤ 9 →
      (100 * q + 9 * d) % 1000 / 100 = q % 10 := by
    intro q d hd
    have h1 : 100 * q + 9 * d =
        1000 * (q / 10) + (100 * (q % 10) + 9 * d) := by omega
    have h2 : (1000 * (q / 10) + (100 * (q % 10) + 9 * d)) % 1000 =
        100 * (q % 10) + 9 * d := by
      rw [Nat.mul_add_mod]
      exact Nat.mod_eq_of_lt (by omega)
    rw [h1, h2, Nat.mul_add_div (by norm_num), Nat.div_eq_of_lt (by omega)]
    omega
  have e3 : (val - val / 10 % 10 - val % 10) % 1000 / 100 =
      val / 100 % 10 := by
    rw [hsub3]
    exact key3 _ _ (by omega)
  have hsub4 : val - val / 100 % 10 - val / 10 % 10 - val % 10 =
      1000 * (val / 1000) + 99 * (val / 100 % 10) + 9 * (val / 10 % 10) := by
    omega
  have key4 : ∀ q d2 d1 : Nat, d2 ≤ 9 → d1 ≤ 9 →
      (1000 * q + 99 * d2 + 9 * d1) % 10000 / 1000 = q % 10 := by
    intro q d2 d1 h2 h1
    have ha : 1000 * q + 99 * d2 + 9 * d1 =
        10000 * (q / 10) + (1000 * (q % 10) + 99 * d2 + 9 * d1) := by omega
    have hb : (10000 * (q / 10) + (1000 * (q % 10) + 99 * d2 + 9 * d1)) %
        10000 = 1000 * (q % 10) + 99 * d2 + 9 * d1 := by
      rw [Nat.mul_add_mod]
      exact Nat.mod_eq_of_lt (by omega)
    have hc : 1000 * (q % 10) + 99 * d2 + 9 * d1 =
        1000 * (q % 10) + (99 * d2 + 9 * d1) := by omega
    rw [ha, hb, hc, Nat.mul_add_div (by norm_num),
      Nat.div_eq_of_lt (by omega)]
    omega
  have e4 : (val - val / 100 % 10 - val / 10 % 10 - val % 10) % 10000 / 1000
      = val / 1000 % 10 := by
    rw [hsub4]
    exact key4 _ _ _ (by omega) (by omega)
  have hsub5 : val - val / 1000 % 10 - val / 100 % 10 - val / 10 % 10 -
      val % 10 = 10000 * (val / 10000) + 999 * (val / 1000 % 10) +
      99 * (val / 100 % 10) + 9 * (val / 10 % 10) := by omega
  have key5 : ∀ q d3 d2 d1 : Nat, d3 ≤ 9 → d2 ≤ 9 → d1 ≤ 9 →
      (10000 * q + 999 * d3 + 99 * d2 + 9 * d1) / 10000 = q := by
    intro q d3 d2 d1 h3 h2 h1
    have ha : 10000 * q + 999 * d3 + 99 * d2 + 9 * d1 =
        10000 * q + (999 * d3 + 99 * d2 + 9 * d1) := by omega
    rw [ha, Nat.mul_add_div (by norm_num), Nat.div_eq_of_lt (by omega)]
    omega
  have e5 : (val - val / 1000 % 10 - val / 100 % 10 - val / 10 % 10 -
      val % 10) / 10000 = val / 10000 := by
    rw [hsub5]
    exact key5 _ _ _ _ (by omega) (by omega) (by omega)
  simp only [write_u32_ascii_vals, ASCII_INT_OFFSET]
  rw [e2, e3, e4, e5]

/-- The digit computation of `write_u8` is correct for all byte values. -/
lemma write_u8_digits (val : Nat) (h : val < 256) :
    Periphs.write_u8_ascii_vals val =
      [val / 100 + 48, val / 10 % 10 + 48, val % 10 + 48] := by
  have e2 : (val - val % 10) % 100 / 10 = val / 10 % 10 := by omega
  have s100 : val % 100 = 10 * (val / 10 % 10) + val % 10 := by omega
  have hsub3 : val - val / 10 % 10 - val % 10 =
      100 * (val / 100) + 9 * (val / 10 % 10) := by omega
  have key3 : ∀ q d : Nat, d ≤ 9 → (100 * q + 9 * d) / 100 = q := by
    intro q d hd
    rw [Nat.mul_add_div (by norm_num), Nat.div_eq_of_lt (by omega)]
    omega
  have e3 : (val - val / 10 % 10 - val % 10) / 100 = val / 100 := by
    rw [hsub3]
    exact key3 _ _ (by omega)
  simp only [Periphs.write_u8_ascii_vals, ASCII_INT_OFFSET]
  rw [e2, e3]

lemma digit_char_ok (c : Nat) (h1 : 48 ≤ c) (h2 : c ≤ 57) :
    checkLines 0 (splitLines [c]) = true := by
  have hc10 : ¬ c = 10 := by omega
  simp [splitLines, hc10, checkLines, byteLen, utf8Len,
    show c < 128 from by omega, LCD_MAX_LINE_LENGTH, LCD_MAX_NEWLINES]

/-- `writeEach` over digit characters never panics and emits exactly the
two-latch groups of each character in order. -/
lemma writeEach_digits (l : List Nat) (reg : Nat)
    (h : ∀ c ∈ l, 48 ≤ c ∧ c ≤ 57) :
    ∃ r tr, writeEach l reg = (some r, tr) ∧
      latchSeq tr = l.flatMap latchSpec := by
  induction l generalizing reg with
  | nil => exact ⟨reg, [], rfl, rfl⟩
  | cons c rest ih =>
      have hc := h c (by simp)
      have hs : ¬((55296 ≤ c ∧ c ≤ 57343) ∨ 1114112 ≤ c) := by omega
      have hok : checkLines 0 (splitLines [c]) = true :=
        digit_char_ok c hc.1 hc.2
      have hws : write_string [c] reg =
          (some (writeChars [c] reg).1, (writeChars [c] reg).2) := by
        simp [write_string, hok]
      obtain ⟨r2, tr2, he2, hl2⟩ := ih (writeChars [c] reg).1
        (fun d hd => h d (by simp [hd]))
      refine ⟨r2, (writeChars [c] reg).2 ++ tr2, ?_, ?_⟩
      · simp only [writeEach, if_neg hs, hws, he2]
      · rw [latchSeq_append, latchSeq_writeChars, hl2]
        simp

/-- The `i2c_periphs` `writeEach` over digit characters never panics and
emits exactly the two-latch groups of each character in order. -/
lemma pwriteEach_digits (l : List Nat) (reg : Nat)
    (h : ∀ c ∈ l, 48 ≤ c ∧ c ≤ 57) :
    ∃ r tr, Periphs.writeEach l reg = (some r, tr) ∧
      latchSeq tr = l.flatMap latchSpec := by
  induction l generalizing reg with
  | nil => exact ⟨reg, [], rfl, rfl⟩
  | cons c rest ih =>
      have hc := h c (by simp)
      have hok : checkLines 0 (splitLines [c]) = true :=
        digit_char_ok c hc.1 hc.2
      have hws : Periphs.write_string [c] reg =
          (some (Periphs.writeChars [c] reg).1,
            (Periphs.writeChars [c] reg).2) := by
        simp [Periphs.write_string, hok]
      obtain ⟨r2, tr2, he2, hl2⟩ := ih (Periphs.writeChars [c] reg).1
        (fun d hd => h d (by simp [hd]))
      refine ⟨r2, (Periphs.writeChars [c] reg).2 ++ tr2, ?_, ?_⟩
      · simp only [Periphs.writeEach, hws, he2]
      · rw [latchSeq_append, platch_writeChars, hl2]
        simp

/-- Claim C6 (amended: the u32 half holds for values below 100000; at and
above 100000 the output is not the decimal representation).  `write_u32`
emits exactly 5 single-character writes whose characters are the zero-padded
5-digit decimal representation obtained by successive division and
remainder, each written through the normal character-write path; `write_u8`
analogously emits the zero-padded 3-digit representation for every byte
value. -/
theorem numeric_display_fixed_width :
    (∀ val reg : Nat, val < 100000 →
      write_u32_ascii_vals val =
        [val / 10000 + 48, val / 1000 % 10 + 48, val / 100 % 10 + 48,
          val / 10 % 10 + 48, val % 10 + 48] ∧
      (write_u32_ascii_vals val).length = 5 ∧
      ∃ r tr, write_u32 val reg = (some r, tr) ∧
        latchSeq tr = (write_u32_ascii_vals val).flatMap latchSpec) ∧
    (∀ val reg : Nat, val < 256 →
      Periphs.write_u8_ascii_vals val =
        [val / 100 + 48, val / 10 % 10 + 48, val % 10 + 48] ∧
      (Periphs.write_u8_ascii_vals val).length = 3 ∧
      ∃ r tr, Periphs.write_u8 val reg = (some r, tr) ∧
        latchSeq tr = (Periphs.write_u8_ascii_vals val).flatMap latchSpec)
    := by
  constructor
  · intro val reg hv
    have hd := write_u32_digits val hv
    have hdig : ∀ c ∈ write_u32_ascii_vals val, 48 ≤ c ∧ c ≤ 57 := by
      rw [hd]
      intro c hc
      simp only [List.mem_cons, List.not_mem_nil, or_false] at hc
      have h1 : val / 10000 ≤ 9 := by omega
      have h2 : val / 1000 % 10 ≤ 9 := by omega
      have h3 : val / 100 % 10 ≤ 9 := by omega
      have h4 : val / 10 % 10 ≤ 9 := by omega
      have h5 : val % 10 ≤ 9 := by omega
      rcases hc with rfl | rfl | rfl | rfl | rfl <;> omega
    exact ⟨hd, rfl, writeEach_digits _ reg hdig⟩
  · intro val reg hv
    have hd := write_u8_digits val hv
    have hdig : ∀ c ∈ Periphs.write_u8_ascii_vals val,
        48 ≤ c ∧ c ≤ 57 := by
      rw [hd]
      intro c hc
      simp only [List.mem_cons, List.not_mem_nil, or_false] at hc
      have h1 : val / 100 ≤ 9 := by omega
      have h2 : val / 10 % 10 ≤ 9 := by omega
      have h3 : val % 10 ≤ 9 := by omega
      rcases hc with rfl | rfl | rfl <;> omega
    exact ⟨hd, rfl, pwriteEach_digits _ reg hdig⟩

/-- Witness for `numeric_display_fixed_width`: `write_u32 42` emits the
five characters of "00042" (codes 48, 48, 48, 52, 50). -/
theorem numeric_display_fixed_width_witness :
    write_u32_ascii_vals 42 = [48, 48, 48, 52, 50] ∧
      (write_u32_ascii_vals 42 =
        [42 / 10000 + 48, 42 / 1000 % 10 + 48, 42 / 100 % 10 + 48,
          42 / 10 % 10 + 48, 42 % 10 + 48] ∧
      (write_u32_ascii_vals 42).length = 5 ∧
      ∃ r tr, write_u32 42 0 = (some r, tr) ∧
        latchSeq tr = (write_u32_ascii_vals 42).flatMap latchSpec) :=
  ⟨by decide, numeric_display_fixed_width.1 42 0 (by decide)⟩

/-- Counterexample to claim C6 as stated: at value 100000 the five emitted
character codes are 58 48 48 48 48 (":0000"); the first is not an ASCII
digit, so the output is not the decimal representation of the value. -/
theorem numeric_display_fixed_width_counterexample :
    write_u32_ascii_vals 100000 = [58, 48, 48, 48, 48] ∧
      ¬(∀ c ∈ write_u32_ascii_vals 100000, 48 ≤ c ∧ c ≤ 57) := by
  decide

/-! ### Claim C4: the debounce loop -/

lemma debounce_wait_stuck (pressed : Nat → Bool)
    (hp : ∀ t, pressed t = true) :
    ∀ t fuel, debounce_wait pressed t fuel = none := by
  intro t fuel
  induction fuel generalizing t with
  | zero => rfl
  | succ k ih => simp [debounce_wait, hp t, ih (t + 1)]

lemma debounce_wait_release (pressed : Nat → Bool) :
    ∀ n t, (∀ i < n, pressed (t + i) = true) → pressed (t + n) = false →
      debounce_wait pressed t (n + 1) =
        some (t + n, List.replicate (n + 1) (Ev.delayUs 250)) := by
  intro n
  induction n with
  | zero =>
      intro t _ hrel
      simp only [Nat.add_zero] at hrel
      simp [debounce_wait, hrel]
  | succ k ih =>
      intro t hpress hrel
      have h0 : pressed t = true := by
        have := hpress 0 (by omega)
        simpa using this
      have hp2 : ∀ i < k, pressed (t + 1 + i) = true := by
        intro i hi
        have := hpress (i + 1) (by omega)
        simpa [Nat.add_assoc, Nat.add_comm 1 i] using this
      have hr2 : pressed (t + 1 + k) = false := by
        simpa [Nat.add_assoc, Nat.add_comm 1 k] using hrel
      have hrec := ih (t + 1) hp2 hr2
      have hstep : debounce_wait pressed t (k + 1 + 1) =
          (debounce_wait pressed (t + 1) (k + 1)).map
            (fun nt => (nt.1, Ev.delayUs 250 :: nt.2)) := by
        simp [debounce_wait, h0]
      have ht : t + 1 + k = t + (k + 1) := by omega
      rw [hstep, hrec, ht]
      simp [List.replicate_succ]

/-- Claim C4 (spec-modelled): the debounced single-key scan.  If the initial
scan detects a key and every re-scan still registers a key, the loop never
returns no matter the fuel bound; if the initial scan detects no key the
call returns `none` immediately with no delay; and if the key is released
at re-scan `n + 1` after being held through re-scans `1 .. n`, the call
returns the originally-detected key having emitted exactly `n + 1` fixed
250 microsecond delays, one between consecutive scans. -/
theorem debounced_scan_blocks_until_release :
    (∀ (reads : Nat → Nat × Nat × Nat) (fuel : Nat),
      (∀ t, ((scan (reads t).1 (reads t).2.1 (reads t).2.2).1).isSome) →
      debounced_scan reads fuel = none) ∧
    (∀ (reads : Nat → Nat × Nat × Nat) (fuel : Nat),
      (scan (reads 0).1 (reads 0).2.1 (reads 0).2.2).1 = none →
      debounced_scan reads fuel = some (none, [])) ∧
    (∀ (reads : Nat → Nat × Nat × Nat) (n : Nat) (pk : PressedKeys),
      (scan (reads 0).1 (reads 0).2.1 (reads 0).2.2).1 = some pk →
      (∀ t < n,
        ((scan (reads (t + 1)).1 (reads (t + 1)).2.1
          (reads (t + 1)).2.2).1).isSome) →
      (scan (reads (n + 1)).1 (reads (n + 1)).2.1 (reads (n + 1)).2.2).1 =
        none →
      debounced_scan reads (n + 1) =
        some (firstKey pk, List.replicate (n + 1) (Ev.delayUs 250))) := by
  refine ⟨?_, ?_, ?_⟩
  · intro reads fuel hall
    unfold debounced_scan
    cases hs : (scan (reads 0).1 (reads 0).2.1 (reads 0).2.2).1 with
    | none =>
        have := hall 0
        rw [hs] at this
        simp at this
    | some pk =>
        have hw := debounce_wait_stuck
          (fun t =>
            ((scan (reads (t + 1)).1 (reads (t + 1)).2.1
              (reads (t + 1)).2.2).1).isSome)
          (fun t => by simpa using hall (t + 1)) 0 fuel
        rw [hw]
        rfl
  · intro reads fuel hnone
    unfold debounced_scan
    rw [hnone]
  · intro reads n pk hsome hheld hrel
    unfold debounced_scan
    rw [hsome]
    have hw := debounce_wait_release
      (fun t =>
        ((scan (reads (t + 1)).1 (reads (t + 1)).2.1
          (reads (t + 1)).2.2).1).isSome)
      n 0 (fun i hi => by simpa using hheld i hi)
      (by simpa [hrel] using congrArg Option.isSome hrel)
    simp only [Nat.zero_add] at hw
    rw [hw]
    rfl

/-- Witness for `debounced_scan_blocks_until_release`: a stuck-high row bit
(key 1 held forever) never returns even with fuel 5; a key released at the
first re-scan returns key 1 after one 250 microsecond delay. -/
theorem debounced_scan_blocks_until_release_witness :
    debounced_scan (fun _ => (2, 0, 0)) 5 = none ∧
    debounced_scan (fun t => if t = 0 then (2, 0, 0) else (0, 0, 0)) 1 =
      some (firstKey ⟨[(Key.One, true), (Key.Two, false),
        (Key.Three, false), (Key.Four, false), (Key.Five, false),
        (Key.Six, false), (Key.Seven, false), (Key.Eight, false),
        (Key.Nine, false), (Key.Star, false), (Key.Zero, false),
        (Key.Pound, false)], 0⟩,
        List.replicate 1 (Ev.delayUs 250)) := by
  constructor
  · exact debounced_scan_blocks_until_release.1 (fun _ => (2, 0, 0)) 5
      (fun t => show ((scan 2 0 0).1).isSome = true by decide)
  · exact debounced_scan_blocks_until_release.2.2
      (fun t => if t = 0 then (2, 0, 0) else (0, 0, 0)) 0 _ (by decide)
      (fun t ht => absurd ht (Nat.not_lt_zero t)) (by decide)

end DiyerCutter
